/-
Verification of the wolf-creek-pass repository (capture-cycle orchestrator,
dual-backend storage gateway, route-to-entity geometric matcher).

Shallow embedding conventions:
* Python `int` is modelled as `ℤ` (ids, counts) and list/loop indices as `ℕ`.
* Python `float` values that are only stored, copied and compared (model
  fields, storage columns, DynamoDB attributes) are modelled as `ℚ`:
  every IEEE-754 double is a dyadic rational, and no arithmetic is performed
  on these fields, so the embedding is exact and keeps everything decidable.
  Trigonometric arithmetic in route.py (haversine) is carried out in `ℝ`,
  coercing the rational coordinates at the call site.
* Pydantic models (models.py) are mirrored as structures carrying exactly
  the fields models.py declares.  Pydantic's default configuration silently
  ignores unknown keyword arguments at construction time, while *reading*
  an undeclared attribute raises `AttributeError` and *assigning* one raises
  `ValueError`; both are modelled explicitly with `PyErr`.
* Fallible Python code is embedded in `Except PyErr`.  A SQLite method that
  raises before `conn.commit()` leaves the database unchanged (the open
  transaction is rolled back), which the `Except` result models by not
  returning a database.
* The SQLite database is a record of tables (lists of typed rows shaped by
  the CREATE TABLE statements, with the nullability actually produced by the
  INSERT statements).  `ORDER BY col` is modelled with a stable sort
  (`List.insertionSort`), `DESC` by the reversed comparison, `LIMIT n` with
  `List.take`.
* The DynamoDB table is a list of items keyed by (PK, SK); `put_item`
  replaces an existing item with the same key in place, otherwise appends.
  A query on the main index returns items with the given PK filtered by the
  sort-key condition, ordered by SK (descending when ScanIndexForward is
  false) and truncated to the Limit; a query on the GSI1 index does the same
  with (GSI1PK, GSI1SK).  `_decimal_safe`/`_float_safe` transport a float
  through `str`/`float`, which round-trips exactly; this is modelled by a
  dedicated number constructor of the attribute-value type.
-/
import Mathlib

namespace WolfCreek

/- ===================== Python-level error values ===================== -/

/-- Dynamic errors raised by the Python runtime that the embedding tracks:
pydantic raises `AttributeError` when an undeclared attribute of a model is
read, and `ValueError` when one is assigned. -/
inductive PyErr where
  | attributeError (typeName fieldName : String)
  | valueError (typeName fieldName : String)
  deriving DecidableEq, Repr

/- ===================== Data model (src/models.py) ===================== -/

/-- models.CameraView: a single camera view with an image URL. -/
structure CameraView where
  Url : Option String := none
  deriving DecidableEq, Repr

/-- models.Camera (models.py lines 17-28), fields exactly as declared. -/
structure Camera where
  Id : ℤ
  SourceId : Option String := none
  Roadway : Option String := none
  Direction : Option String := none
  Location : Option String := none
  Latitude : Option ℚ := none
  Longitude : Option ℚ := none
  Views : List CameraView := []
  distance_from_route_km : Option ℚ := none
  deriving DecidableEq, Repr

/-- models.CaptureRecord (models.py lines 34-46), fields exactly as declared
there: `camera_id`, `cycle_id`, `captured_at`, `image_key` and the
denormalized camera fields.  models.py declares no analysis fields
(`has_snow`, `has_car`, `has_truck`, `has_animal`, `analysis_notes`) on this
model, although storage.py, traffic_cam_monitor.py and the test suite all
use them; reading them is modelled by `pydanticMissingAttr` below. -/
structure CaptureRecord where
  camera_id : ℤ
  cycle_id : String
  captured_at : String
  image_key : String := ""
  roadway : Option String := none
  direction : Option String := none
  location : Option String := none
  latitude : Option ℚ := none
  longitude : Option ℚ := none
  deriving DecidableEq, Repr

/-- models.Route (models.py lines 52-67), fields exactly as declared.  Note
that `duration_in_traffic_s`, which storage.py and route.py read from route
objects, is not among them. -/
structure Route where
  route_id : String := ""
  name : String := ""
  color : String := "#3b82f6"
  share_id : String := ""
  origin : String := ""
  destination : String := ""
  polyline : String := ""
  distance_m : ℤ := 0
  duration_s : ℤ := 0
  has_closure : Bool := false
  has_conditions : Bool := false
  travel_time_display : String := ""
  distance_display : String := ""
  deriving DecidableEq, Repr

/-- models.RoadCondition (models.py lines 73-82). -/
structure RoadCondition where
  id : ℤ := 0
  roadway_name : String := ""
  road_condition : String := ""
  weather_condition : String := ""
  restriction : String := ""
  encoded_polyline : String := ""
  last_updated : ℤ := 0
  deriving DecidableEq, Repr

/-- models.Event (models.py lines 88-100). -/
structure Event where
  id : String := ""
  event_type : String := ""
  event_sub_type : String := ""
  roadway_name : String := ""
  direction : String := ""
  description : String := ""
  severity : String := ""
  latitude : Option ℚ := none
  longitude : Option ℚ := none
  is_full_closure : Bool := false
  deriving DecidableEq, Repr

/-- models.WeatherStation (models.py lines 106-118). -/
structure WeatherStation where
  id : ℤ := 0
  station_name : String := ""
  air_temperature : String := ""
  surface_temp : String := ""
  surface_status : String := ""
  wind_speed_avg : String := ""
  wind_speed_gust : String := ""
  wind_direction : String := ""
  precipitation : String := ""
  relative_humidity : String := ""
  deriving DecidableEq, Repr

/-- models.CycleSummary (models.py lines 169-178), fields exactly as
declared.  `snow_count`, which storage.py and traffic_cam_monitor.py use on
cycle objects, is not among them. -/
structure CycleSummary where
  cycle_id : String
  started_at : String
  completed_at : String := ""
  cameras_processed : ℤ := 0
  event_count : ℤ := 0
  travel_time_s : Option ℤ := none
  distance_m : Option ℤ := none
  deriving DecidableEq, Repr

/-- Modelled from the spec: `models.AnalysisResult` is imported by
src/analyze.py but its definition is absent from src/models.py.  Spec §6
gives its shape: `analyze(bytes) -> {has_snow, has_car, has_truck,
has_animal: bool|null, notes: string}`. -/
structure AnalysisResult where
  has_snow : Option Bool := none
  has_car : Option Bool := none
  has_truck : Option Bool := none
  has_animal : Option Bool := none
  notes : String := ""
  deriving DecidableEq, Repr

/- ============ GeoMatcher (src/route.py): haversine and decoding ============ -/

/-- route.py line 21. -/
def EARTH_RADIUS_KM : ℝ := 6371.0

/-- `math.radians`: degrees to radians. -/
noncomputable def radians (x : ℝ) : ℝ := x * (Real.pi / 180)

/-- `math.atan2 y x` (C99/IEEE semantics on real arguments; the sole caller
below only passes non-negative arguments). -/
noncomputable def atan2 (y x : ℝ) : ℝ :=
  if 0 < x then Real.arctan (y / x)
  else if x < 0 then
    (if y < 0 then Real.arctan (y / x) - Real.pi else Real.arctan (y / x) + Real.pi)
  else if 0 < y then Real.pi / 2
  else if y < 0 then -(Real.pi / 2)
  else 0

/-- route.haversine_km (route.py lines 133-147): great-circle distance
between two points in km via the haversine formula. -/
noncomputable def haversine_km (lat1 lon1 lat2 lon2 : ℝ) : ℝ :=
  let lat1_r := radians lat1
  let lon1_r := radians lon1
  let lat2_r := radians lat2
  let lon2_r := radians lon2
  let dlat := lat2_r - lat1_r
  let dlon := lon2_r - lon1_r
  let a := Real.sin (dlat / 2) ^ 2 +
    Real.cos lat1_r * Real.cos lat2_r * Real.sin (dlon / 2) ^ 2
  let c := 2 * atan2 (Real.sqrt a) (Real.sqrt (1 - a))
  EARTH_RADIUS_KM * c

/-- Modelled from the spec: the external `polyline` package's `decode` used
by route.decode_route_points is not part of the repository.  Spec §4.1:
"decodes a standard polygon-encoded polyline (Google polyline algorithm,
precision 5) into an ordered point sequence; empty input yields an empty
sequence."  This helper turns the character stream into the zig-zag-decoded
signed integers: five-bit chunks (character code minus 63) are accumulated
little-endian while the continuation bit (0x20) is set. -/
def polyDecodeVals : List Char → ℕ → ℕ → List ℤ
  | [], _, _ => []
  | c :: rest, shift, acc =>
    let b := c.toNat - 63
    if 32 ≤ b then
      polyDecodeVals rest (shift + 5) (acc + (b - 32) * 2 ^ shift)
    else
      let v := acc + b * 2 ^ shift
      let z : ℤ := if v % 2 = 1 then -(((v : ℤ) + 1) / 2) else (v : ℤ) / 2
      z :: polyDecodeVals rest 0 0

/-- Modelled from the spec (continuation of the polyline decoder): the
decoded values alternate latitude/longitude deltas, accumulated into
absolute scaled coordinates. -/
def polyPairs : List ℤ → ℤ → ℤ → List (ℤ × ℤ)
  | la :: lo :: rest, plat, plng =>
    (plat + la, plng + lo) :: polyPairs rest (plat + la) (plng + lo)
  | _, _, _ => []

/-- Modelled from the spec: full decode of a Google encoded polyline into
scaled integer coordinates (precision 5, i.e. degrees times 100000). -/
def polylineDecodeInts (s : String) : List (ℤ × ℤ) :=
  polyPairs (polyDecodeVals s.data 0 0) 0 0

/-- route.decode_route_points (route.py lines 126-130): `[]` when the
route's polyline is falsy, otherwise the decoded (lat, lng) pairs.  The
division by 100000 restores degrees; the results are exact rationals. -/
def decode_route_points (route : Route) : List (ℚ × ℚ) :=
  if route.polyline = "" then []
  else (polylineDecodeInts route.polyline).map
    (fun p => ((p.1 : ℚ) / 100000, (p.2 : ℚ) / 100000))

/-- Haversine distance from rational coordinates (the stored floats) to a
route point; arithmetic in `ℝ`. -/
noncomputable def haversineQ (lat lon : ℚ) (p : ℚ × ℚ) : ℝ :=
  haversine_km (lat : ℝ) (lon : ℝ) (p.1 : ℝ) (p.2 : ℝ)

/-- route.min_distance_to_route (route.py lines 150-156): minimum distance
from a point to any point of the route; `float("inf")` — the top element of
`EReal` — when the route is empty. -/
noncomputable def min_distance_to_route (lat lon : ℚ) (route_points : List (ℚ × ℚ)) :
    EReal :=
  (route_points.map (fun p => ((haversineQ lat lon p : ℝ) : EReal))).foldr min ⊤

/-- The index of the route point closest to the camera (route.py lines
186-194): Python's `min(range(len(route_points)), key=...)` returns the
first index attaining the minimal key. -/
noncomputable def nearest_point_index (lat lon : ℚ) (route_points : List (ℚ × ℚ)) : ℕ :=
  (List.range route_points.length).foldl
    (fun best i =>
      if haversineQ lat lon (route_points.getD i (0, 0)) <
          haversineQ lat lon (route_points.getD best (0, 0)) then i else best)
    0

/-- `round(dist, 3)` (route.py line 183): round to three decimal places.
The result is an exact rational, stored in the camera's
`distance_from_route_km` field. -/
noncomputable def round3 (x : ℝ) : ℚ := (round (x * 1000) : ℚ) / 1000

/-- The body of route.filter_cameras_by_route's loop (route.py lines
174-195): cameras without coordinates are skipped; for the rest the minimum
distance to the route is computed and those within `buffer_km` are kept as
triples `(dist, closest_idx, camera-with-distance-set)`. -/
noncomputable def matchedTriples (cameras : List Camera)
    (route_points : List (ℚ × ℚ)) (buffer_km : ℚ) : List (EReal × ℕ × Camera) :=
  cameras.filterMap (fun camera =>
    match camera.Latitude, camera.Longitude with
    | some lat, some lon =>
      let dist := min_distance_to_route lat lon route_points
      if dist ≤ ((buffer_km : ℝ) : EReal) then
        let camera' := { camera with
          distance_from_route_km := some (round3 dist.toReal) }
        let closest_idx := nearest_point_index lat lon route_points
        some (dist, closest_idx, camera')
      else none
    | _, _ => none)

/-- route.filter_cameras_by_route (route.py lines 159-205): the matched
triples are sorted by `closest_idx` with Python's stable `list.sort`
(modelled by the stable `List.insertionSort`), and the cameras are
extracted.  When the polyline decodes to no points the input list is
returned unchanged. -/
noncomputable def filter_cameras_by_route (cameras : List Camera) (route : Route)
    (buffer_km : ℚ := 2) : List Camera :=
  let route_points := decode_route_points route
  if route_points = [] then cameras
  else
    ((matchedTriples cameras route_points buffer_km).insertionSort
      (fun a b => a.2.1 ≤ b.2.1)).map (fun x => x.2.2)

/-- The nearest-route-point index of a camera, as a function of the camera
itself (used to state ordering properties of `filter_cameras_by_route`);
cameras kept by the filter always carry coordinates. -/
noncomputable def cameraRouteKey (route_points : List (ℚ × ℚ)) (c : Camera) : ℕ :=
  match c.Latitude, c.Longitude with
  | some lat, some lon => nearest_point_index lat lon route_points
  | _, _ => 0

/-- Spec side of C7: the input cameras that have both coordinates and
minimum haversine distance to the route points at most the buffer, each
with the rounded distance recorded in `distance_from_route_km` (in input
order). -/
noncomputable def qualifiedCameras (cameras : List Camera)
    (route_points : List (ℚ × ℚ)) (buffer_km : ℚ) : List Camera :=
  cameras.filterMap (fun camera =>
    match camera.Latitude, camera.Longitude with
    | some lat, some lon =>
      if min_distance_to_route lat lon route_points ≤ ((buffer_km : ℝ) : EReal) then
        some { camera with
          distance_from_route_km :=
            some (round3 (min_distance_to_route lat lon route_points).toReal) }
      else none
    | _, _ => none)

/- ============= Dynamic Python values and pydantic attribute access ============= -/

/-- A dynamically typed Python value, used where the source reads attributes
whose existence is not guaranteed by the models and where DynamoDB items are
assembled. -/
inductive PyVal where
  | none
  | bool (b : Bool)
  | int (i : ℤ)
  | str (s : String)
  deriving DecidableEq, Repr

/-- Reading an attribute that the pydantic model does not declare raises
`AttributeError`.  The source does this in three places: storage.py reads
`capture.has_snow`/`has_car`/`has_truck`/`has_animal`/`analysis_notes`
(models.CaptureRecord declares none of them), `route.duration_in_traffic_s`
(models.Route declares no such field) and `cycle.snow_count`
(models.CycleSummary declares no such field); traffic_cam_monitor.py reads
the same capture fields from a previous CaptureRecord. -/
def pydanticMissingAttr (typeName fieldName : String) : Except PyErr PyVal :=
  .error (.attributeError typeName fieldName)

/-- Assigning an attribute that the pydantic model does not declare raises
`ValueError` (traffic_cam_monitor.py line 221 does
`cycle.snow_count = snow_count`; models.CycleSummary has no such field). -/
def pydanticMissingSetAttr (typeName fieldName : String) : Except PyErr Unit :=
  .error (.valueError typeName fieldName)

/-- storage._bool_to_int applied to the dynamically typed value obtained
from a (missing) attribute read: `None → None`, `bool → 0/1`. -/
def pyBoolToInt : PyVal → Option ℤ
  | .bool b => some (if b then 1 else 0)
  | _ => Option.none

/-- A dynamically typed value used where a nullable string is expected. -/
def pyToStr : PyVal → Option String
  | .str s => some s
  | _ => Option.none

/-- A dynamically typed value used where a nullable integer is expected. -/
def pyToInt : PyVal → Option ℤ
  | .int n => some n
  | _ => Option.none

/-- Lexicographic comparison of two character lists by code point. -/
def charListLe : List Char → List Char → Bool
  | [], _ => true
  | _ :: _, [] => false
  | a :: as, b :: bs =>
    if a.toNat < b.toNat then true
    else if b.toNat < a.toNat then false
    else charListLe as bs

/-- String comparison by code point: the order SQLite's default BINARY
collation (`ORDER BY` on TEXT), DynamoDB's UTF-8 sort-key order and
Python's string comparison all agree on for the ASCII ids and ISO
timestamps this system stores. -/
def strLe (a b : String) : Bool := charListLe a.data b.data

/- ===================== SQLite backend (storage.py lines 90-572) ===================== -/

/-- A row of the `captures` table (schema at storage.py lines 120-139),
with the nullability of what `save_capture`'s INSERT can produce: `NOT
NULL`-in-practice columns (always provided from required model fields) are
plain, the analysis and denormalized columns nullable. -/
structure CaptureRow where
  camera_id : ℤ
  cycle_id : String
  captured_at : String
  image_key : String
  has_snow : Option ℤ := none
  has_car : Option ℤ := none
  has_truck : Option ℤ := none
  has_animal : Option ℤ := none
  analysis_notes : Option String := none
  roadway : Option String := none
  direction : Option String := none
  location : Option String := none
  latitude : Option ℚ := none
  longitude : Option ℚ := none
  deriving DecidableEq, Repr

/-- A row of the `routes` table (storage.py lines 141-153); `route_id` is
the primary key, the remaining columns nullable. -/
structure RouteRow where
  route_id : String
  name : Option String := none
  color : Option String := none
  origin : Option String := none
  destination : Option String := none
  polyline : Option String := none
  distance_m : Option ℤ := none
  duration_s : Option ℤ := none
  duration_in_traffic_s : Option ℤ := none
  deriving DecidableEq, Repr

/-- A row of the `cycles` table (storage.py lines 155-166). -/
structure CycleRow where
  cycle_id : String
  started_at : String
  completed_at : Option String := none
  cameras_processed : Option ℤ := none
  snow_count : Option ℤ := none
  event_count : Option ℤ := none
  travel_time_s : Option ℤ := none
  distance_m : Option ℤ := none
  deriving DecidableEq, Repr

/-- A row of the `road_conditions` table (storage.py lines 168-180; the
autoincrement surrogate key is left implicit in the list position). -/
structure ConditionRow where
  cycle_id : String
  condition_id : ℤ
  roadway_name : String
  road_condition : String
  weather_condition : String
  restriction : String
  encoded_polyline : String
  last_updated : ℤ
  deriving DecidableEq, Repr

/-- A row of the `events` table (storage.py lines 182-197). -/
structure EventRow where
  cycle_id : String
  event_id : String
  event_type : String
  event_sub_type : String
  roadway_name : String
  direction : String
  description : String
  severity : String
  latitude : Option ℚ := none
  longitude : Option ℚ := none
  is_full_closure : ℤ
  deriving DecidableEq, Repr

/-- A row of the `weather` table (storage.py lines 199-214). -/
structure WeatherRow where
  cycle_id : String
  station_id : ℤ
  station_name : String
  air_temperature : String
  surface_temp : String
  surface_status : String
  wind_speed_avg : String
  wind_speed_gust : String
  wind_direction : String
  precipitation : String
  relative_humidity : String
  deriving DecidableEq, Repr

/-- A row of the `cameras` table (storage.py lines 107-118); `Views` is not
among the columns, so camera views are never persisted. -/
structure CameraRow where
  id : ℤ
  source_id : Option String := none
  roadway : Option String := none
  direction : Option String := none
  location : Option String := none
  latitude : Option ℚ := none
  longitude : Option ℚ := none
  distance_from_route_km : Option ℚ := none
  deriving DecidableEq, Repr

/-- The SQLite database plus the images directory of the filesystem. -/
structure SQLiteDB where
  cameras : List CameraRow := []
  captures : List CaptureRow := []
  routes : List RouteRow := []
  cycles : List CycleRow := []
  road_conditions : List ConditionRow := []
  events : List EventRow := []
  weather : List WeatherRow := []
  image_hashes : List (ℤ × String) := []
  images : List (String × List ℕ) := []
  deriving DecidableEq, Repr

/-- The freshly initialized database: `init` creates empty tables. -/
def sqliteEmpty : SQLiteDB := {}

namespace SQLiteStorage

/-- SQLiteStorage.save_camera (storage.py lines 229-247): INSERT OR REPLACE
upserts by the primary key `id`; `camera.Views` is not written. -/
def save_camera (db : SQLiteDB) (camera : Camera) : SQLiteDB :=
  let row : CameraRow :=
    { id := camera.Id, source_id := camera.SourceId, roadway := camera.Roadway,
      direction := camera.Direction, location := camera.Location,
      latitude := camera.Latitude, longitude := camera.Longitude,
      distance_from_route_km := camera.distance_from_route_km }
  if db.cameras.any (fun r => r.id = camera.Id) then
    { db with cameras := db.cameras.map (fun r => if r.id = camera.Id then row else r) }
  else
    { db with cameras := db.cameras ++ [row] }

/-- SQLiteStorage.save_capture (storage.py lines 269-294).  The VALUES
tuple is evaluated left to right: `capture.camera_id`, `.cycle_id`,
`.captured_at` and `.image_key` are declared fields and succeed, then
`_bool_to_int(capture.has_snow)` reads an attribute models.CaptureRecord
does not declare and raises AttributeError; `conn.commit()` is never
reached, so the database is unchanged. -/
def save_capture (db : SQLiteDB) (capture : CaptureRecord) : Except PyErr SQLiteDB := do
  let hs ← pydanticMissingAttr "CaptureRecord" "has_snow"
  let hc ← pydanticMissingAttr "CaptureRecord" "has_car"
  let ht ← pydanticMissingAttr "CaptureRecord" "has_truck"
  let ha ← pydanticMissingAttr "CaptureRecord" "has_animal"
  let an ← pydanticMissingAttr "CaptureRecord" "analysis_notes"
  .ok { db with captures := db.captures ++ [{
    camera_id := capture.camera_id, cycle_id := capture.cycle_id,
    captured_at := capture.captured_at, image_key := capture.image_key,
    has_snow := pyBoolToInt hs, has_car := pyBoolToInt hc,
    has_truck := pyBoolToInt ht, has_animal := pyBoolToInt ha,
    analysis_notes := pyToStr an, roadway := capture.roadway,
    direction := capture.direction, location := capture.location,
    latitude := capture.latitude, longitude := capture.longitude }] }

/-- storage._row_to_capture (storage.py lines 1035-1051) builds a
models.CaptureRecord from a row.  The keyword arguments `has_snow` ..
`analysis_notes` it passes are evaluated and then silently ignored by
pydantic, since models.CaptureRecord declares no such fields; `or ""` on the
non-null text columns is the identity. -/
def _row_to_capture (r : CaptureRow) : CaptureRecord :=
  { camera_id := r.camera_id, cycle_id := r.cycle_id,
    captured_at := r.captured_at, image_key := r.image_key,
    roadway := r.roadway, direction := r.direction, location := r.location,
    latitude := r.latitude, longitude := r.longitude }

/-- SQLiteStorage.get_recent_captures (storage.py lines 296-302):
`SELECT * FROM captures ORDER BY captured_at DESC LIMIT ?`. -/
def get_recent_captures (db : SQLiteDB) (limit : ℕ := 20) : List CaptureRecord :=
  ((db.captures.insertionSort (fun a b => strLe b.captured_at a.captured_at = true)).take
    limit).map _row_to_capture

/-- SQLiteStorage.get_captures_by_cycle (storage.py lines 304-310):
`SELECT * FROM captures WHERE cycle_id = ? ORDER BY camera_id`. -/
def get_captures_by_cycle (db : SQLiteDB) (cycle_id : String) : List CaptureRecord :=
  ((db.captures.filter (fun r => r.cycle_id = cycle_id)).insertionSort
    (fun a b => a.camera_id ≤ b.camera_id)).map _row_to_capture

/-- INSERT OR REPLACE into `routes` (primary key `route_id`). -/
def upsertRouteRow (tbl : List RouteRow) (r : RouteRow) : List RouteRow :=
  if tbl.any (fun x => x.route_id = r.route_id) then
    tbl.map (fun x => if x.route_id = r.route_id then r else x)
  else tbl ++ [r]

/-- SQLiteStorage.save_routes (storage.py lines 314-336): DELETE FROM
routes, then INSERT OR REPLACE each route.  The VALUES tuple reads
`route.duration_in_traffic_s` (line 332), a field models.Route does not
declare, raising AttributeError on the first route; `conn.commit()` is then
never reached and the whole transaction (including the DELETE) is rolled
back, leaving the table unchanged. -/
def save_routes (db : SQLiteDB) (routes : List Route) : Except PyErr SQLiteDB := do
  let rows ← routes.mapM (fun route => do
    let dts ← pydanticMissingAttr "Route" "duration_in_traffic_s"
    pure ({ route_id := route.route_id, name := some route.name,
            color := some route.color, origin := some route.origin,
            destination := some route.destination, polyline := some route.polyline,
            distance_m := some route.distance_m, duration_s := some route.duration_s,
            duration_in_traffic_s := pyToInt dts } : RouteRow))
  .ok { db with routes := rows.foldl upsertRouteRow [] }

/-- Python's `x or default` on a nullable text column: `None` and the empty
string both fall back to the default. -/
def pyOrStr (o : Option String) (d : String) : String :=
  match o with
  | Option.none => d
  | some s => if s = "" then d else s

/-- `x or 0` on a nullable integer column. -/
def pyOrInt (o : Option ℤ) : ℤ := o.getD 0

/-- SQLiteStorage.get_routes (storage.py lines 338-355):
`SELECT * FROM routes ORDER BY route_id`; the `duration_in_traffic_s`
keyword argument is evaluated and then ignored by pydantic (models.Route
has no such field). -/
def get_routes (db : SQLiteDB) : List Route :=
  (db.routes.insertionSort (fun a b => strLe a.route_id b.route_id = true)).map
    (fun r => ({ route_id := r.route_id, name := pyOrStr r.name "",
                 color := pyOrStr r.color "#3b82f6", origin := pyOrStr r.origin "",
                 destination := pyOrStr r.destination "",
                 polyline := pyOrStr r.polyline "",
                 distance_m := pyOrInt r.distance_m,
                 duration_s := pyOrInt r.duration_s } : Route))

/-- SQLiteStorage.save_cycle (storage.py lines 359-378): the VALUES tuple
reads `cycle.snow_count` (line 371), a field models.CycleSummary does not
declare, raising AttributeError; nothing is committed. -/
def save_cycle (db : SQLiteDB) (cycle : CycleSummary) : Except PyErr SQLiteDB := do
  let sc ← pydanticMissingAttr "CycleSummary" "snow_count"
  let row : CycleRow :=
    { cycle_id := cycle.cycle_id, started_at := cycle.started_at,
      completed_at := some cycle.completed_at,
      cameras_processed := some cycle.cameras_processed,
      snow_count := pyToInt sc, event_count := some cycle.event_count,
      travel_time_s := cycle.travel_time_s, distance_m := cycle.distance_m }
  if db.cycles.any (fun x => x.cycle_id = cycle.cycle_id) then
    .ok { db with cycles := db.cycles.map (fun x =>
      if x.cycle_id = cycle.cycle_id then row else x) }
  else
    .ok { db with cycles := db.cycles ++ [row] }

/-- SQLiteStorage.get_cycles (storage.py lines 380-398):
`SELECT * FROM cycles ORDER BY started_at DESC LIMIT ?`; the `snow_count`
keyword argument is ignored by pydantic. -/
def get_cycles (db : SQLiteDB) (limit : ℕ := 50) : List CycleSummary :=
  ((db.cycles.insertionSort (fun a b => strLe b.started_at a.started_at = true)).take
    limit).map (fun r =>
    { cycle_id := r.cycle_id, started_at := r.started_at,
      completed_at := (r.completed_at.getD ""),
      cameras_processed := pyOrInt r.cameras_processed,
      event_count := pyOrInt r.event_count,
      travel_time_s := r.travel_time_s, distance_m := r.distance_m })

/-- SQLiteStorage.save_road_conditions (storage.py lines 402-424): one
INSERT per condition, scoped to the cycle id. -/
def save_road_conditions (db : SQLiteDB) (cycle_id : String)
    (conditions : List RoadCondition) : SQLiteDB :=
  { db with road_conditions := db.road_conditions ++ conditions.map (fun c =>
      { cycle_id := cycle_id, condition_id := c.id, roadway_name := c.roadway_name,
        road_condition := c.road_condition, weather_condition := c.weather_condition,
        restriction := c.restriction, encoded_polyline := c.encoded_polyline,
        last_updated := c.last_updated }) }

/-- SQLiteStorage.get_road_conditions (storage.py lines 426-443):
`SELECT * FROM road_conditions WHERE cycle_id = ?` (no ORDER BY; rows come
back in insertion order). -/
def get_road_conditions (db : SQLiteDB) (cycle_id : String) : List RoadCondition :=
  (db.road_conditions.filter (fun r => r.cycle_id = cycle_id)).map (fun r =>
    { id := r.condition_id, roadway_name := r.roadway_name,
      road_condition := r.road_condition, weather_condition := r.weather_condition,
      restriction := r.restriction, encoded_polyline := r.encoded_polyline,
      last_updated := r.last_updated })

/-- SQLiteStorage.save_events (storage.py lines 447-470). -/
def save_events (db : SQLiteDB) (cycle_id : String) (events : List Event) : SQLiteDB :=
  { db with events := db.events ++ events.map (fun e =>
      { cycle_id := cycle_id, event_id := e.id, event_type := e.event_type,
        event_sub_type := e.event_sub_type, roadway_name := e.roadway_name,
        direction := e.direction, description := e.description,
        severity := e.severity, latitude := e.latitude, longitude := e.longitude,
        is_full_closure := if e.is_full_closure then 1 else 0 }) }

/-- SQLiteStorage.get_events (storage.py lines 472-492):
`SELECT * FROM events WHERE cycle_id = ?`; `bool(r["is_full_closure"])`
is true exactly on nonzero integers. -/
def get_events (db : SQLiteDB) (cycle_id : String) : List Event :=
  (db.events.filter (fun r => r.cycle_id = cycle_id)).map (fun r =>
    { id := r.event_id, event_type := r.event_type,
      event_sub_type := r.event_sub_type, roadway_name := r.roadway_name,
      direction := r.direction, description := r.description,
      severity := r.severity, latitude := r.latitude, longitude := r.longitude,
      is_full_closure := decide (r.is_full_closure ≠ (0 : ℤ)) })

/-- SQLiteStorage.save_weather (storage.py lines 496-520). -/
def save_weather (db : SQLiteDB) (cycle_id : String)
    (stations : List WeatherStation) : SQLiteDB :=
  { db with weather := db.weather ++ stations.map (fun w =>
      { cycle_id := cycle_id, station_id := w.id, station_name := w.station_name,
        air_temperature := w.air_temperature, surface_temp := w.surface_temp,
        surface_status := w.surface_status, wind_speed_avg := w.wind_speed_avg,
        wind_speed_gust := w.wind_speed_gust, wind_direction := w.wind_direction,
        precipitation := w.precipitation, relative_humidity := w.relative_humidity }) }

/-- SQLiteStorage.get_weather (storage.py lines 522-542):
`SELECT * FROM weather WHERE cycle_id = ?`. -/
def get_weather (db : SQLiteDB) (cycle_id : String) : List WeatherStation :=
  (db.weather.filter (fun r => r.cycle_id = cycle_id)).map (fun r =>
    { id := r.station_id, station_name := r.station_name,
      air_temperature := r.air_temperature, surface_temp := r.surface_temp,
      surface_status := r.surface_status, wind_speed_avg := r.wind_speed_avg,
      wind_speed_gust := r.wind_speed_gust, wind_direction := r.wind_direction,
      precipitation := r.precipitation, relative_humidity := r.relative_humidity })

/-- SQLiteStorage.save_image (storage.py lines 546-550): write the bytes
under `images_dir / key` (overwriting any previous content) and return the
path. -/
def save_image (db : SQLiteDB) (key : String) (data : List ℕ) : SQLiteDB × String :=
  let db' :=
    if db.images.any (fun kv => kv.1 = key) then
      { db with images := db.images.map (fun kv => if kv.1 = key then (key, data) else kv) }
    else { db with images := db.images ++ [(key, data)] }
  (db', "images/" ++ key)

/-- SQLiteStorage.get_image_url (storage.py lines 552-553). -/
def get_image_url (key : String) : String := "images/" ++ key

/-- SQLiteStorage.get_image_hash (storage.py lines 557-563). -/
def get_image_hash (db : SQLiteDB) (camera_id : ℤ) : Option String :=
  (db.image_hashes.find? (fun kv => kv.1 = camera_id)).map (fun kv => kv.2)

/-- SQLiteStorage.save_image_hash (storage.py lines 565-572): INSERT OR
REPLACE upserts by the primary key `camera_id`. -/
def save_image_hash (db : SQLiteDB) (camera_id : ℤ) (hash_hex : String) : SQLiteDB :=
  if db.image_hashes.any (fun kv => kv.1 = camera_id) then
    { db with image_hashes := db.image_hashes.map (fun kv =>
        if kv.1 = camera_id then (camera_id, hash_hex) else kv) }
  else { db with image_hashes := db.image_hashes ++ [(camera_id, hash_hex)] }

end SQLiteStorage

/- ===================== DynamoDB backend (storage.py lines 578-1013) ===================== -/

/-- A DynamoDB attribute value as this table uses them: strings, integers
(Python ints stored as DynamoDB numbers), booleans, and floats transported
through `_decimal_safe`/`_float_safe` — i.e. `str()` on write and `float()`
on read, which round-trips an IEEE double exactly and is therefore modelled
as the exact rational itself (constructor `F`). -/
inductive DVal where
  | S (s : String)
  | N (n : ℤ)
  | B (b : Bool)
  | F (q : ℚ)
  deriving DecidableEq, Repr

/-- An item of the single table: the key attributes `PK`/`SK`, the optional
secondary-index key attributes `GSI1PK`/`GSI1SK` (absent e.g. on image-hash
items), and the remaining attributes. -/
structure DItem where
  PK : String
  SK : String
  GSI1PK : Option String := none
  GSI1SK : Option String := none
  attrs : List (String × DVal) := []
  deriving DecidableEq, Repr

/-- The single DynamoDB table. -/
abbrev DynamoTable := List DItem

/-- storage._strip_none (storage.py lines 1060-1062): drop the pairs whose
value is `None` from the item dict before writing. -/
def stripNone (l : List (String × Option DVal)) : List (String × DVal) :=
  l.filterMap (fun kv => kv.2.map (fun v => (kv.1, v)))

/-- `table.put_item`: replaces the item with the same primary key (PK, SK)
if present, otherwise adds the item. -/
def putItem (tbl : DynamoTable) (it : DItem) : DynamoTable :=
  if tbl.any (fun j => j.PK = it.PK ∧ j.SK = it.SK) then
    tbl.map (fun j => if j.PK = it.PK ∧ j.SK = it.SK then it else j)
  else tbl ++ [it]

/-- DynamoDB's `begins_with` sort-key condition. -/
def beginsWith (s pre : String) : Bool := pre.data.isPrefixOf s.data

/-- A query on the GSI1 index with key condition
`GSI1PK = :pk AND begins_with(GSI1SK, :prefix)`: matching items ordered by
the index sort key `GSI1SK` (ascending). -/
def queryGSI (tbl : DynamoTable) (pk pre : String) : List DItem :=
  (tbl.filter (fun it => it.GSI1PK == some pk &&
      match it.GSI1SK with
      | some sk => beginsWith sk pre
      | Option.none => false)).insertionSort
    (fun a b => strLe (a.GSI1SK.getD "") (b.GSI1SK.getD "") = true)

/-- The Boolean key condition of `queryGSI`, as a named predicate. -/
def gsiPred (pk pre : String) (it : DItem) : Bool :=
  it.GSI1PK == some pk &&
    match it.GSI1SK with
    | some sk => beginsWith sk pre
    | Option.none => false

/-- The primary keys `(PK, SK)` of a table are pairwise distinct.  Every
table `put_item` builds up from the empty table satisfies this: a put
either replaces the item holding its key or appends under a fresh key. -/
def keysNodup (tbl : DynamoTable) : Prop :=
  (tbl.map (fun j => (j.PK, j.SK))).Nodup

/-- A query on the main index with key condition
`PK = :pk AND begins_with(SK, :prefix)`, `ScanIndexForward=False` and
`Limit=limit`: matching items ordered by `SK` descending, truncated. -/
def queryMainDesc (tbl : DynamoTable) (pk pre : String) (limit : ℕ) : List DItem :=
  (((tbl.filter (fun it => it.PK == pk && beginsWith it.SK pre)).insertionSort
    (fun a b => strLe a.SK b.SK = true)).reverse).take limit

/-- `item.get(k)`. -/
def dGet (it : DItem) (k : String) : Option DVal :=
  (it.attrs.find? (fun kv => kv.1 = k)).map (fun kv => kv.2)

/-- `item.get(k, default)` where the attribute, when present, is a string
(as all the save methods write for these keys). -/
def dGetStr (it : DItem) (k d : String) : String :=
  match dGet it k with
  | some (.S s) => s
  | _ => d

/-- `item.get(k)` used as a nullable string field. -/
def dGetOptStr (it : DItem) (k : String) : Option String :=
  match dGet it k with
  | some (.S s) => some s
  | _ => Option.none

/-- `int(item.get(k, d))` where the attribute, when present, is a number. -/
def dGetInt (it : DItem) (k : String) (d : ℤ) : ℤ :=
  match dGet it k with
  | some (.N n) => n
  | _ => d

/-- `bool(item.get(k, False))`. -/
def dGetBool (it : DItem) (k : String) : Bool :=
  match dGet it k with
  | some (.B b) => b
  | _ => false

/-- storage._float_safe (storage.py lines 1072-1076) applied to
`item.get(k)`. -/
def dFloatSafe (o : Option DVal) : Option ℚ :=
  match o with
  | some (.F q) => some q
  | _ => Option.none

/-- storage._int_safe (storage.py lines 1079-1083) applied to
`item.get(k)`. -/
def dIntSafe (o : Option DVal) : Option ℤ :=
  match o with
  | some (.N n) => n
  | _ => Option.none

/-- A dynamically typed Python value placed into an item dict (dead code
after a failed attribute read; `None` is removed by `_strip_none`). -/
def pyToDVal : PyVal → Option DVal
  | .none => Option.none
  | .bool b => some (.B b)
  | .int n => some (.N n)
  | .str s => some (.S s)

/-- `"CAMERA#17".split("#")` on the character level (Python `str.split`
with an explicit separator). -/
def splitOnChar (sep : Char) : List Char → List (List Char)
  | [] => [[]]
  | c :: rest =>
    let r := splitOnChar sep rest
    if c = sep then [] :: r
    else
      match r with
      | [] => [[c]]
      | h :: t => (c :: h) :: t

/-- `int()` of a decimal string, as produced for camera ids by
`save_capture`'s `GSI1SK = f"CAMERA#{camera_id}"`; an optional leading `-`
followed by digits.  (Python's `int` raises on other inputs; rows written
by `save_capture` always carry a decimal id there, so junk is mapped to
0.) -/
def parseIntChars (cs : List Char) : ℤ :=
  match cs with
  | '-' :: rest => -(rest.foldl (fun acc c => acc * 10 + (c.toNat - 48)) 0 : ℕ)
  | _ => (cs.foldl (fun acc c => acc * 10 + (c.toNat - 48)) 0 : ℕ)

/-- `int(item["GSI1SK"].split("#")[1])` (storage.py line 733). -/
def captureCameraId (gsi1sk : String) : ℤ :=
  parseIntChars ((splitOnChar '#' gsi1sk.data).getD 1 [])

namespace DynamoStorage

/-- DynamoStorage.save_capture (storage.py lines 690-713).  The item dict
literal is evaluated key by key: the key strings and the declared fields
succeed, then `"has_snow": capture.has_snow` reads an attribute
models.CaptureRecord does not declare and raises AttributeError before
`put_item` is called. -/
def save_capture (tbl : DynamoTable) (capture : CaptureRecord) :
    Except PyErr DynamoTable := do
  let hs ← pydanticMissingAttr "CaptureRecord" "has_snow"
  let hc ← pydanticMissingAttr "CaptureRecord" "has_car"
  let ht ← pydanticMissingAttr "CaptureRecord" "has_truck"
  let ha ← pydanticMissingAttr "CaptureRecord" "has_animal"
  let an ← pydanticMissingAttr "CaptureRecord" "analysis_notes"
  .ok (putItem tbl
    { PK := "CAMERA#" ++ toString capture.camera_id,
      SK := "CAPTURE#" ++ capture.captured_at,
      GSI1PK := some ("CYCLE#" ++ capture.cycle_id),
      GSI1SK := some ("CAMERA#" ++ toString capture.camera_id),
      attrs := stripNone [
        ("cycle_id", some (.S capture.cycle_id)),
        ("captured_at", some (.S capture.captured_at)),
        ("image_key", some (.S capture.image_key)),
        ("has_snow", pyToDVal hs), ("has_car", pyToDVal hc),
        ("has_truck", pyToDVal ht), ("has_animal", pyToDVal ha),
        ("analysis_notes", pyToDVal an),
        ("roadway", capture.roadway.map DVal.S),
        ("direction", capture.direction.map DVal.S),
        ("location", capture.location.map DVal.S),
        ("latitude", capture.latitude.map DVal.F),
        ("longitude", capture.longitude.map DVal.F)] })

/-- DynamoStorage.get_captures_by_cycle (storage.py lines 722-749): GSI1
query for `CYCLE#{cycle_id}` / prefix `CAMERA#`.  The analysis keyword
arguments read from the item are ignored by pydantic (models.CaptureRecord
declares no such fields). -/
def itemToCapture (cycle_id : String) (it : DItem) : CaptureRecord :=
  { camera_id := captureCameraId (it.GSI1SK.getD ""),
    cycle_id := dGetStr it "cycle_id" cycle_id,
    captured_at := dGetStr it "captured_at" "",
    image_key := dGetStr it "image_key" "",
    roadway := dGetOptStr it "roadway",
    direction := dGetOptStr it "direction",
    location := dGetOptStr it "location",
    latitude := dFloatSafe (dGet it "latitude"),
    longitude := dFloatSafe (dGet it "longitude") }

def get_captures_by_cycle (tbl : DynamoTable) (cycle_id : String) :
    List CaptureRecord :=
  (queryGSI tbl ("CYCLE#" ++ cycle_id) "CAMERA#").map (itemToCapture cycle_id)

/-- DynamoStorage.save_cycle (storage.py lines 798-816): the item dict
reads `cycle.snow_count` (line 810), which models.CycleSummary does not
declare; AttributeError is raised before `put_item`. -/
def save_cycle (tbl : DynamoTable) (cycle : CycleSummary) :
    Except PyErr DynamoTable := do
  let sc ← pydanticMissingAttr "CycleSummary" "snow_count"
  .ok (putItem tbl
    { PK := "CYCLES", SK := "CYCLE#" ++ cycle.cycle_id,
      GSI1PK := some ("CYCLE#" ++ cycle.cycle_id), GSI1SK := some "META",
      attrs := stripNone [
        ("cycle_id", some (.S cycle.cycle_id)),
        ("started_at", some (.S cycle.started_at)),
        ("completed_at", some (.S cycle.completed_at)),
        ("cameras_processed", some (.N cycle.cameras_processed)),
        ("snow_count", pyToDVal sc),
        ("event_count", some (.N cycle.event_count)),
        ("travel_time_s", cycle.travel_time_s.map DVal.N),
        ("distance_m", cycle.distance_m.map DVal.N)] })

/-- DynamoStorage.get_cycles (storage.py lines 818-840): main-index query
on `PK = "CYCLES"` with prefix `CYCLE#`, newest first
(`ScanIndexForward=False`), bounded by the limit.  The `snow_count` keyword
argument read from the item is ignored by pydantic. -/
def itemToCycle (it : DItem) : CycleSummary :=
  { cycle_id := dGetStr it "cycle_id" "",
    started_at := dGetStr it "started_at" "",
    completed_at := dGetStr it "completed_at" "",
    cameras_processed := dGetInt it "cameras_processed" 0,
    event_count := dGetInt it "event_count" 0,
    travel_time_s := dIntSafe (dGet it "travel_time_s"),
    distance_m := dIntSafe (dGet it "distance_m") }

def get_cycles (tbl : DynamoTable) (limit : ℕ := 50) : List CycleSummary :=
  (queryMainDesc tbl "CYCLES" "CYCLE#" limit).map itemToCycle

/-- DynamoStorage.get_recent_captures (storage.py lines 715-720): take the
latest cycle and return (a prefix of) that cycle's captures — not the most
recent captures across all cycles. -/
def get_recent_captures (tbl : DynamoTable) (limit : ℕ := 20) : List CaptureRecord :=
  match get_cycles tbl 1 with
  | [] => []
  | c :: _ => (get_captures_by_cycle tbl c.cycle_id).take limit

/-- DynamoStorage.save_routes (storage.py lines 753-773): one `put_item`
per route — there is no delete, so items for route ids not in the list are
left in the table.  The item dict reads `route.duration_in_traffic_s`
(line 770), which models.Route does not declare; AttributeError is raised
while building the first route's item, before any `put_item`. -/
def save_routes (tbl : DynamoTable) : List Route → Except PyErr DynamoTable
  | [] => .ok tbl
  | route :: rest => do
    let dts ← pydanticMissingAttr "Route" "duration_in_traffic_s"
    save_routes (putItem tbl
      { PK := "ROUTE#" ++ route.route_id, SK := "META",
        GSI1PK := some "ROUTE", GSI1SK := some route.route_id,
        attrs := stripNone [
          ("route_id", some (.S route.route_id)),
          ("name", some (.S route.name)),
          ("color", some (.S route.color)),
          ("origin", some (.S route.origin)),
          ("destination", some (.S route.destination)),
          ("polyline", some (.S route.polyline)),
          ("distance_m", some (.N route.distance_m)),
          ("duration_s", some (.N route.duration_s)),
          ("duration_in_traffic_s", pyToDVal dts)] }) rest

/-- DynamoStorage.get_routes (storage.py lines 776-794): a GSI1 query with
key condition `GSI1PK = :pk` alone for pk = "ROUTE" (every route item,
ordered by the index sort key, the route id; the empty `begins_with`
constraint below is vacuously true, leaving the plain partition-key
query).  The `duration_in_traffic_s` keyword argument is evaluated and
then ignored by pydantic (models.Route has no such field). -/
def itemToRoute (it : DItem) : Route :=
  { route_id := dGetStr it "route_id" "",
    name := dGetStr it "name" "",
    color := dGetStr it "color" "#3b82f6",
    origin := dGetStr it "origin" "",
    destination := dGetStr it "destination" "",
    polyline := dGetStr it "polyline" "",
    distance_m := dGetInt it "distance_m" 0,
    duration_s := dGetInt it "duration_s" 0 }

def get_routes (tbl : DynamoTable) : List Route :=
  (queryGSI tbl "ROUTE" "").map itemToRoute

/-- The item written by DynamoStorage.save_road_conditions (storage.py
lines 844-864): keyed by roadway name with the cycle id as sort key. -/
def conditionItem (cycle_id : String) (c : RoadCondition) : DItem :=
  { PK := "CONDITION#" ++ c.roadway_name, SK := cycle_id,
    GSI1PK := some ("CYCLE#" ++ cycle_id),
    GSI1SK := some ("CONDITION#" ++ c.roadway_name),
    attrs := stripNone [
      ("condition_id", some (.N c.id)),
      ("roadway_name", some (.S c.roadway_name)),
      ("road_condition", some (.S c.road_condition)),
      ("weather_condition", some (.S c.weather_condition)),
      ("restriction", some (.S c.restriction)),
      ("encoded_polyline", some (.S c.encoded_polyline)),
      ("last_updated", some (.N c.last_updated))] }

/-- DynamoStorage.save_road_conditions (storage.py lines 844-864). -/
def save_road_conditions (tbl : DynamoTable) (cycle_id : String)
    (conditions : List RoadCondition) : DynamoTable :=
  conditions.foldl (fun t c => putItem t (conditionItem cycle_id c)) tbl

/-- DynamoStorage.get_road_conditions (storage.py lines 866-886). -/
def itemToCondition (it : DItem) : RoadCondition :=
  { id := dGetInt it "condition_id" 0,
    roadway_name := dGetStr it "roadway_name" "",
    road_condition := dGetStr it "road_condition" "",
    weather_condition := dGetStr it "weather_condition" "",
    restriction := dGetStr it "restriction" "",
    encoded_polyline := dGetStr it "encoded_polyline" "",
    last_updated := dGetInt it "last_updated" 0 }

def get_road_conditions (tbl : DynamoTable) (cycle_id : String) :
    List RoadCondition :=
  (queryGSI tbl ("CYCLE#" ++ cycle_id) "CONDITION#").map itemToCondition

/-- The item written by DynamoStorage.save_events (storage.py lines
890-911): the primary key `("EVENT#" ++ id, "META")` does not involve the
cycle id, so re-saving an event id for another cycle replaces the item. -/
def eventItem (cycle_id : String) (e : Event) : DItem :=
  { PK := "EVENT#" ++ e.id, SK := "META",
    GSI1PK := some ("CYCLE#" ++ cycle_id), GSI1SK := some ("EVENT#" ++ e.id),
    attrs := stripNone [
      ("event_id", some (.S e.id)),
      ("event_type", some (.S e.event_type)),
      ("event_sub_type", some (.S e.event_sub_type)),
      ("roadway_name", some (.S e.roadway_name)),
      ("direction", some (.S e.direction)),
      ("description", some (.S e.description)),
      ("severity", some (.S e.severity)),
      ("latitude", e.latitude.map DVal.F),
      ("longitude", e.longitude.map DVal.F),
      ("is_full_closure", some (.B e.is_full_closure))] }

/-- DynamoStorage.save_events (storage.py lines 890-911). -/
def save_events (tbl : DynamoTable) (cycle_id : String) (events : List Event) :
    DynamoTable :=
  events.foldl (fun t e => putItem t (eventItem cycle_id e)) tbl

/-- DynamoStorage.get_events (storage.py lines 913-936). -/
def itemToEvent (it : DItem) : Event :=
  { id := dGetStr it "event_id" "",
    event_type := dGetStr it "event_type" "",
    event_sub_type := dGetStr it "event_sub_type" "",
    roadway_name := dGetStr it "roadway_name" "",
    direction := dGetStr it "direction" "",
    description := dGetStr it "description" "",
    severity := dGetStr it "severity" "",
    latitude := dFloatSafe (dGet it "latitude"),
    longitude := dFloatSafe (dGet it "longitude"),
    is_full_closure := dGetBool it "is_full_closure" }

def get_events (tbl : DynamoTable) (cycle_id : String) : List Event :=
  (queryGSI tbl ("CYCLE#" ++ cycle_id) "EVENT#").map itemToEvent

/-- The item written by DynamoStorage.save_weather (storage.py lines
940-961): keyed by station name with the cycle id as sort key. -/
def weatherItem (cycle_id : String) (w : WeatherStation) : DItem :=
  { PK := "WEATHER#" ++ w.station_name, SK := cycle_id,
    GSI1PK := some ("CYCLE#" ++ cycle_id),
    GSI1SK := some ("WEATHER#" ++ w.station_name),
    attrs := stripNone [
      ("station_id", some (.N w.id)),
      ("station_name", some (.S w.station_name)),
      ("air_temperature", some (.S w.air_temperature)),
      ("surface_temp", some (.S w.surface_temp)),
      ("surface_status", some (.S w.surface_status)),
      ("wind_speed_avg", some (.S w.wind_speed_avg)),
      ("wind_speed_gust", some (.S w.wind_speed_gust)),
      ("wind_direction", some (.S w.wind_direction)),
      ("precipitation", some (.S w.precipitation)),
      ("relative_humidity", some (.S w.relative_humidity))] }

/-- DynamoStorage.save_weather (storage.py lines 940-961). -/
def save_weather (tbl : DynamoTable) (cycle_id : String)
    (stations : List WeatherStation) : DynamoTable :=
  stations.foldl (fun t w => putItem t (weatherItem cycle_id w)) tbl

/-- DynamoStorage.get_weather (storage.py lines 963-986). -/
def itemToWeather (it : DItem) : WeatherStation :=
  { id := dGetInt it "station_id" 0,
    station_name := dGetStr it "station_name" "",
    air_temperature := dGetStr it "air_temperature" "",
    surface_temp := dGetStr it "surface_temp" "",
    surface_status := dGetStr it "surface_status" "",
    wind_speed_avg := dGetStr it "wind_speed_avg" "",
    wind_speed_gust := dGetStr it "wind_speed_gust" "",
    wind_direction := dGetStr it "wind_direction" "",
    precipitation := dGetStr it "precipitation" "",
    relative_humidity := dGetStr it "relative_humidity" "" }

def get_weather (tbl : DynamoTable) (cycle_id : String) : List WeatherStation :=
  (queryGSI tbl ("CYCLE#" ++ cycle_id) "WEATHER#").map itemToWeather

end DynamoStorage

/- ======== CycleOrchestrator (src/traffic_cam_monitor.py, SQLite backend) ======== -/

/-- Raw image bytes. -/
abbrev Bytes := List ℕ

/-- The external collaborators and clock readings one capture cycle
consumes, passed in as data: the orchestrator is a function of these and of
the storage state.  A `none`/`Option.none` fetch result models the
collaborator raising an exception. -/
structure CycleCollab where
  /-- `datetime.now().strftime("%Y-%m-%dT%H:%M:%S")` at cycle start
  (traffic_cam_monitor.py line 55); used as cycle id and started_at. -/
  cycleId : String
  /-- The value of models.CaptureRecord's `captured_at` default factory. -/
  capturedAt : String
  /-- `datetime.now().strftime("%Y%m%d_%H%M%S")` used in fresh image keys
  (line 137). -/
  imgStamp : String
  /-- `datetime.now().isoformat()` at summarize time (line 219). -/
  completedAt : String
  /-- settings.get_all_camera_ids(). -/
  cameraIds : List ℤ
  /-- udot.fetch_all_cameras (returns an empty list on error, never
  raises). -/
  allCameras : List Camera
  /-- `requests.get(url).content`; `Option.none` models a
  RequestException. -/
  fetchUrl : String → Option Bytes
  /-- `hashlib.sha256(data).hexdigest()`. -/
  sha256 : Bytes → String
  /-- analyze.analyze_image_bytes (external vision collaborator; returns a
  result rather than raising). -/
  analyze : Bytes → AnalysisResult
  /-- udot.fetch_route_conditions; `Option.none` models an exception. -/
  conditionsFetch : Option (List RoadCondition)
  /-- udot.fetch_route_events; `Option.none` models an exception. -/
  eventsFetch : Option (List Event)
  /-- udot.fetch_route_weather; `Option.none` models an exception. -/
  weatherFetch : Option (List WeatherStation)

/-- traffic_cam_monitor._download_image (lines 239-257): `None` when the
camera has no views, no URL or an empty URL, or when the request fails. -/
def _download_image (fetch : String → Option Bytes) (camera : Camera) : Option Bytes :=
  match camera.Views with
  | [] => Option.none
  | v :: _ =>
    match v.Url with
    | Option.none => Option.none
    | some url => if url = "" then Option.none else fetch url

/-- Mutable state of the per-camera loop (lines 89-174). -/
structure LoopState where
  db : SQLiteDB
  snow_count : ℕ := 0
  skipped_count : ℕ := 0
  deriving DecidableEq, Repr

/-- One iteration of the per-camera loop (lines 92-174).  On a download
failure the camera is skipped.  When the image hash matches the stored one,
the skip path (lines 110-134) runs: the previous capture is looked up among
the 100 most recent captures; if one is found, evaluating the keyword
argument `has_snow=prev.has_snow` raises AttributeError
(models.CaptureRecord declares no analysis fields); if none is found, the
record is built from the declared fields (the analysis keyword arguments
are ignored by pydantic) and `save_capture` itself raises; were it to
succeed, line 132 `if capture.has_snow:` would raise as well.  On a fresh
image the bytes and the new hash are stored, then `save_capture` raises the
same way. -/
def cameraStep (co : CycleCollab) (cycle_id : String) (st : LoopState)
    (camera : Camera) : LoopState × Option PyErr :=
  let db := SQLiteStorage.save_camera st.db camera
  match _download_image co.fetchUrl camera with
  | Option.none => ({ st with db := db }, Option.none)
  | some image_data =>
    let image_hash := co.sha256 image_data
    let prev_hash := SQLiteStorage.get_image_hash db camera.Id
    if prev_hash = some image_hash then
      let skipped := st.skipped_count + 1
      let prev_captures := SQLiteStorage.get_recent_captures db 100
      let prev := prev_captures.find? (fun c => c.camera_id = camera.Id)
      match prev with
      | some _ =>
        ({ st with db := db, skipped_count := skipped },
          some (.attributeError "CaptureRecord" "has_snow"))
      | Option.none =>
        let capture : CaptureRecord :=
          { camera_id := camera.Id, cycle_id := cycle_id,
            captured_at := co.capturedAt, image_key := "",
            roadway := camera.Roadway, direction := camera.Direction,
            location := camera.Location, latitude := camera.Latitude,
            longitude := camera.Longitude }
        match SQLiteStorage.save_capture db capture with
        | .error e => ({ st with db := db, skipped_count := skipped }, some e)
        | .ok db' =>
          ({ st with db := db', skipped_count := skipped },
            some (.attributeError "CaptureRecord" "has_snow"))
    else
      let image_key := "cam_" ++ toString camera.Id ++ "_" ++ co.imgStamp ++ ".jpg"
      let db1 := (SQLiteStorage.save_image db image_key image_data).1
      let db2 := SQLiteStorage.save_image_hash db1 camera.Id image_hash
      let analysis := co.analyze image_data
      let capture : CaptureRecord :=
        { camera_id := camera.Id, cycle_id := cycle_id,
          captured_at := co.capturedAt, image_key := image_key,
          roadway := camera.Roadway, direction := camera.Direction,
          location := camera.Location, latitude := camera.Latitude,
          longitude := camera.Longitude }
      match SQLiteStorage.save_capture db2 capture with
      | .error e => ({ st with db := db2 }, some e)
      | .ok db3 =>
        let snow' := if analysis.has_snow.getD false then st.snow_count + 1 else st.snow_count
        ({ st with db := db3, snow_count := snow' }, Option.none)

/-- The sequential per-camera loop; an uncaught exception aborts the whole
cycle (there is no try/except around the loop body). -/
def cameraLoop (co : CycleCollab) (cycle_id : String) :
    LoopState → List Camera → LoopState × Option PyErr
  | st, [] => (st, Option.none)
  | st, c :: rest =>
    match cameraStep co cycle_id st c with
    | (st', Option.none) => cameraLoop co cycle_id st' rest
    | (st', some e) => (st', some e)

/-- Outcome of one run of `run_capture_cycle`: the final storage state,
whether the export step was invoked, and the uncaught exception if the run
aborted. -/
structure RunResult where
  db : SQLiteDB
  exported : Bool
  error : Option PyErr
  deriving DecidableEq, Repr

/-- traffic_cam_monitor.run_capture_cycle (lines 50-236), SQLite backend.

Step 2 calls `get_routes()` with no argument although route.get_routes
requires a `settings` parameter; the TypeError is caught (lines 67-74) and
the fallback `routes = storage.get_routes()` runs, so fresh routes are
never fetched nor saved.  Steps 5b/5c call `storage.save_mountain_passes`
and `storage.save_snow_plows`, which exist on neither backend; the
AttributeError is caught by the per-stage try/except and the state is
unchanged.  Step 6 assigns `cycle.snow_count`, a field
models.CycleSummary does not declare, raising an uncaught ValueError; the
continuation (save_cycle and the export invocation) is kept for shape but
is unreachable.  Were export reached, export.export_cycle_json would call
`storage.get_mountain_passes`, which does not exist on SQLiteStorage. -/
def run_capture_cycle (co : CycleCollab) (db0 : SQLiteDB) : RunResult :=
  let cycle_id := co.cycleId
  let cycle : CycleSummary := { cycle_id := cycle_id, started_at := cycle_id }
  let routes := SQLiteStorage.get_routes db0
  let primary_route := routes.head?
  let cameras := co.cameraIds.filterMap
    (fun cid => (co.allCameras.reverse).find? (fun c => c.Id = cid))
  match cameraLoop co cycle_id { db := db0 } cameras with
  | (st, some e) => { db := st.db, exported := false, error := some e }
  | (st, Option.none) =>
    let enrichGate : Bool :=
      match primary_route with
      | some pr => pr.polyline != ""
      | Option.none => false
    let condRes : SQLiteDB × List RoadCondition :=
      if enrichGate then
        match co.conditionsFetch with
        | some conds => (SQLiteStorage.save_road_conditions st.db cycle_id conds, conds)
        | Option.none => (st.db, [])
      else (st.db, [])
    let evRes : SQLiteDB × List Event :=
      if enrichGate then
        match co.eventsFetch with
        | some evs => (SQLiteStorage.save_events condRes.1 cycle_id evs, evs)
        | Option.none => (condRes.1, [])
      else (condRes.1, [])
    let db5 :=
      match co.weatherFetch with
      | some ws => SQLiteStorage.save_weather evRes.1 cycle_id ws
      | Option.none => evRes.1
    let cycle1 :=
      { cycle with completed_at := co.completedAt, cameras_processed := (cameras.length : ℤ) }
    match pydanticMissingSetAttr "CycleSummary" "snow_count" with
    | .error e => { db := db5, exported := false, error := some e }
    | .ok _ =>
      let cycle2 :=
        { cycle1 with
          event_count := (evRes.2.length : ℤ),
          travel_time_s := primary_route.map (fun r => r.duration_s),
          distance_m := primary_route.map (fun r => r.distance_m) }
      match SQLiteStorage.save_cycle db5 cycle2 with
      | .error e => { db := db5, exported := false, error := some e }
      | .ok db6 =>
        { db := db6, exported := true,
          error := some (.attributeError "SQLiteStorage" "get_mountain_passes") }

/- =================================================================== -/
/- ============================ Theorems ============================= -/
/- =================================================================== -/

/- ------------------------- GeoMatcher ------------------------- -/

theorem atan2_zero_one : atan2 0 1 = 0 := by
  simp [atan2]

/-- C9: `haversine_km` returns 0 on identical points and is symmetric in
its two points. -/
theorem haversine_km_zero_self_and_symm :
    (∀ lat lon : ℝ, haversine_km lat lon lat lon = 0) ∧
    (∀ a_lat a_lon b_lat b_lon : ℝ,
      haversine_km a_lat a_lon b_lat b_lon = haversine_km b_lat b_lon a_lat a_lon) := by
  constructor
  · intro lat lon
    simp [haversine_km, atan2_zero_one]
  · intro a_lat a_lon b_lat b_lon
    have key : ∀ x y : ℝ, Real.sin ((x - y) / 2) ^ 2 = Real.sin ((y - x) / 2) ^ 2 := by
      intro x y
      rw [show (x - y) / 2 = -((y - x) / 2) by ring, Real.sin_neg]
      ring
    simp only [haversine_km]
    rw [key (radians b_lat) (radians a_lat), key (radians b_lon) (radians a_lon),
      mul_comm (Real.cos (radians a_lat)) (Real.cos (radians b_lat))]

/-- C8: when the route's polyline decodes to no points (in particular when
it is the empty string), `filter_cameras_by_route` returns the input list
unchanged. -/
theorem filter_cameras_by_route_empty_polyline (cameras : List Camera)
    (route : Route) (buffer_km : ℚ) (h : decode_route_points route = []) :
    filter_cameras_by_route cameras route buffer_km = cameras := by
  simp [filter_cameras_by_route, h]

/-- Witness for C8 at the empty-polyline route and a concrete camera
list. -/
theorem filter_cameras_by_route_empty_polyline_witness :
    decode_route_points { polyline := "" } = [] ∧
    filter_cameras_by_route
      [{ Id := 4, Location := some "No coords" }, { Id := 1, Latitude := some 40 }]
      { polyline := "" } 5 =
      [{ Id := 4, Location := some "No coords" }, { Id := 1, Latitude := some 40 }] :=
  ⟨rfl, filter_cameras_by_route_empty_polyline _ _ _ rfl⟩

/- ------------------------- GeoMatcher filter (C7) ------------------------- -/

theorem matchedTriples_map_snd (cameras : List Camera)
    (pts : List (ℚ × ℚ)) (buffer_km : ℚ) :
    (matchedTriples cameras pts buffer_km).map (fun x => x.2.2) =
      qualifiedCameras cameras pts buffer_km := by
  unfold matchedTriples qualifiedCameras
  rw [List.map_filterMap]
  apply List.filterMap_congr
  intro c _
  cases hlat : c.Latitude with
  | none => rfl
  | some lat =>
    cases hlon : c.Longitude with
    | none => rfl
    | some lon =>
      by_cases hd : min_distance_to_route lat lon pts ≤ ((buffer_km : ℝ) : EReal)
      · simp [hd]
      · simp [hd]

theorem matchedTriples_key (cameras : List Camera) (pts : List (ℚ × ℚ))
    (buffer_km : ℚ) :
    ∀ t ∈ matchedTriples cameras pts buffer_km,
      t.2.1 = cameraRouteKey pts t.2.2 := by
  intro t ht
  rcases List.mem_filterMap.mp ht with ⟨c, _, hmk⟩
  cases hlat : c.Latitude with
  | none => rw [hlat] at hmk; exact absurd hmk (by simp)
  | some lat =>
    cases hlon : c.Longitude with
    | none => rw [hlat, hlon] at hmk; exact absurd hmk (by simp)
    | some lon =>
      rw [hlat, hlon] at hmk
      by_cases hd : min_distance_to_route lat lon pts ≤ ((buffer_km : ℝ) : EReal)
      · simp only [hd, if_pos] at hmk
        rcases Option.some.injEq _ _ ▸ hmk with rfl
        simp [cameraRouteKey, hlat, hlon]
      · simp [hd] at hmk

/-- C7: with a route whose polyline decodes to a non-empty point list,
`filter_cameras_by_route` returns exactly the cameras with coordinates and
minimum haversine distance within the buffer, with the distance field set
(`qualifiedCameras`), sorted ascending by the index of the camera's
nearest route point, and stably so: cameras sharing a nearest-point index
keep their input order (the filter at each key equals the spec-side filter,
which is in input order). -/
theorem filter_cameras_by_route_spec (cameras : List Camera) (route : Route)
    (buffer_km : ℚ) (h : decode_route_points route ≠ []) :
    List.Perm (filter_cameras_by_route cameras route buffer_km)
      (qualifiedCameras cameras (decode_route_points route) buffer_km) ∧
    (filter_cameras_by_route cameras route buffer_km).Pairwise
      (fun a b => cameraRouteKey (decode_route_points route) a ≤
        cameraRouteKey (decode_route_points route) b) ∧
    (∀ k : ℕ, (filter_cameras_by_route cameras route buffer_km).filter
        (fun c => cameraRouteKey (decode_route_points route) c == k) =
      (qualifiedCameras cameras (decode_route_points route) buffer_km).filter
        (fun c => cameraRouteKey (decode_route_points route) c == k)) := by
  have hout : filter_cameras_by_route cameras route buffer_km =
      (qualifiedCameras cameras (decode_route_points route) buffer_km).insertionSort
        (fun a b => cameraRouteKey (decode_route_points route) a ≤
          cameraRouteKey (decode_route_points route) b) := by
    unfold filter_cameras_by_route
    rw [if_neg h]
    rw [List.map_insertionSort (fun a b : EReal × ℕ × Camera => a.2.1 ≤ b.2.1)
      (fun a b : Camera => cameraRouteKey (decode_route_points route) a ≤
        cameraRouteKey (decode_route_points route) b) (fun x => x.2.2)
      (matchedTriples cameras (decode_route_points route) buffer_km)
      (fun a ha b hb => by
        have ha' := matchedTriples_key cameras (decode_route_points route) buffer_km a ha
        have hb' := matchedTriples_key cameras (decode_route_points route) buffer_km b hb
        simp only [ha', hb'])]
    rw [matchedTriples_map_snd]
  haveI htot : IsTotal Camera (fun a b : Camera =>
      cameraRouteKey (decode_route_points route) a ≤
        cameraRouteKey (decode_route_points route) b) :=
    ⟨fun a b => Nat.le_total _ _⟩
  haveI htrans : IsTrans Camera (fun a b : Camera =>
      cameraRouteKey (decode_route_points route) a ≤
        cameraRouteKey (decode_route_points route) b) :=
    ⟨fun _ _ _ hab hbc => le_trans hab hbc⟩
  refine ⟨?_, ?_, ?_⟩
  · rw [hout]
    exact List.perm_insertionSort _ _
  · rw [hout]
    exact List.sorted_insertionSort _ _
  · intro k
    have hperm : List.Perm
        ((filter_cameras_by_route cameras route buffer_km).filter
          (fun c => cameraRouteKey (decode_route_points route) c == k))
        ((qualifiedCameras cameras (decode_route_points route) buffer_km).filter
          (fun c => cameraRouteKey (decode_route_points route) c == k)) := by
      rw [hout]
      exact (List.perm_insertionSort _ _).filter _
    have hkeys : ∀ c ∈ (qualifiedCameras cameras (decode_route_points route)
        buffer_km).filter (fun c => cameraRouteKey (decode_route_points route) c == k),
        cameraRouteKey (decode_route_points route) c = k := by
      intro c hc
      exact eq_of_beq (List.mem_filter.mp hc).2
    have hpair : ((qualifiedCameras cameras (decode_route_points route)
        buffer_km).filter
          (fun c => cameraRouteKey (decode_route_points route) c == k)).Pairwise
        (fun a b : Camera => cameraRouteKey (decode_route_points route) a ≤
          cameraRouteKey (decode_route_points route) b) := by
      apply List.pairwise_of_forall_mem_list
      intro a ha b hb
      rw [hkeys a ha, hkeys b hb]
    have hsub : List.Sublist
        ((qualifiedCameras cameras (decode_route_points route) buffer_km).filter
          (fun c => cameraRouteKey (decode_route_points route) c == k))
        (filter_cameras_by_route cameras route buffer_km) := by
      rw [hout]
      exact List.sublist_insertionSort hpair (List.filter_sublist _)
    have hsub2 : List.Sublist
        ((qualifiedCameras cameras (decode_route_points route) buffer_km).filter
          (fun c => cameraRouteKey (decode_route_points route) c == k))
        ((filter_cameras_by_route cameras route buffer_km).filter
          (fun c => cameraRouteKey (decode_route_points route) c == k)) := by
      have h1 := hsub.filter (fun c => cameraRouteKey (decode_route_points route) c == k)
      rwa [List.filter_eq_self.mpr
        (fun c hc => (List.mem_filter.mp hc).2)] at h1
    exact (hsub2.eq_of_length hperm.symm.length_eq).symm


/-- Witness for C7 at a route whose polyline "??" decodes to the single
point (0, 0). -/
theorem filter_cameras_by_route_spec_witness :
    decode_route_points { polyline := "??" } ≠ [] ∧
    (List.Perm (filter_cameras_by_route [{ Id := 1, Latitude := some 0, Longitude := some 0 }]
        { polyline := "??" } 2)
      (qualifiedCameras [{ Id := 1, Latitude := some 0, Longitude := some 0 }]
        (decode_route_points { polyline := "??" }) 2) ∧
     (filter_cameras_by_route [{ Id := 1, Latitude := some 0, Longitude := some 0 }]
        { polyline := "??" } 2).Pairwise
       (fun a b => cameraRouteKey (decode_route_points { polyline := "??" }) a ≤
         cameraRouteKey (decode_route_points { polyline := "??" }) b) ∧
     (∀ k : ℕ, (filter_cameras_by_route [{ Id := 1, Latitude := some 0, Longitude := some 0 }]
          { polyline := "??" } 2).filter
         (fun c => cameraRouteKey (decode_route_points { polyline := "??" }) c == k) =
       (qualifiedCameras [{ Id := 1, Latitude := some 0, Longitude := some 0 }]
          (decode_route_points { polyline := "??" }) 2).filter
         (fun c => cameraRouteKey (decode_route_points { polyline := "??" }) c == k))) := by
  have hdec : decode_route_points { polyline := "??" } ≠ [] := by
    simp [decode_route_points, show polylineDecodeInts "??" = [(0, 0)] from rfl]
  exact ⟨hdec, filter_cameras_by_route_spec
    [{ Id := 1, Latitude := some 0, Longitude := some 0 }] { polyline := "??" } 2 hdec⟩

/- ------------------------- StorageGateway: capture round-trip (C1) ------------------------- -/

/-- C1 (code bug): `save_capture` raises AttributeError on every input on
both backends — storage.py reads `capture.has_snow`, a field
models.CaptureRecord does not declare — so no capture can even be saved,
let alone read back equal; the repo's own test
test_storage.py::TestSQLiteStorageCaptures expects the saved capture back
with `has_snow is True`.  The final conjunct evaluates the SQLite save at
the conftest.py `sample_capture` fixture (as pydantic actually constructs
it, i.e. with the analysis keyword arguments dropped). -/
theorem save_capture_raises_attribute_error :
    (∀ (db : SQLiteDB) (c : CaptureRecord),
      SQLiteStorage.save_capture db c =
        .error (.attributeError "CaptureRecord" "has_snow")) ∧
    (∀ (tbl : DynamoTable) (c : CaptureRecord),
      DynamoStorage.save_capture tbl c =
        .error (.attributeError "CaptureRecord" "has_snow")) ∧
    SQLiteStorage.save_capture sqliteEmpty
      { camera_id := 100, cycle_id := "2026-02-07T12:00:00",
        captured_at := "2026-02-07T12:00:00",
        image_key := "cam_100_20260207_120000.jpg",
        roadway := some "SR-35", direction := some "NB",
        location := some "Wolf Creek Pass Summit",
        latitude := some (40.3712 : ℚ), longitude := some (-111.1156 : ℚ) } =
      .error (.attributeError "CaptureRecord" "has_snow") :=
  ⟨fun _ _ => rfl, fun _ _ => rfl, rfl⟩

/- ------------------------- StorageGateway: route replace (C3) ------------------------- -/

/-- C3 (code bug): `save_routes` raises AttributeError on every non-empty
route list on both backends — storage.py reads
`route.duration_in_traffic_s`, a field models.Route does not declare —
before anything is committed, so routes are never replaced at all; the
repo's own test test_storage.py::TestSQLiteStorageRoutes expects the saved
routes back.  The middle conjuncts evaluate the failure at the conftest.py
`sample_route` fixture against a database holding a previously persisted
route with a different route_id, and show that route is still returned
afterwards (the failed transaction leaves the table untouched).  The final
conjuncts show the claim also fails on Dynamo's only non-crashing input,
the empty list: DynamoStorage.save_routes performs no delete, so saving
`[]` succeeds yet leaves a previously persisted route item in the table,
and `get_routes` still returns it, where full-replace semantics would
remove it. -/
theorem save_routes_raises_attribute_error :
    (∀ (db : SQLiteDB) (route : Route) (rest : List Route),
      SQLiteStorage.save_routes db (route :: rest) =
        .error (.attributeError "Route" "duration_in_traffic_s")) ∧
    (∀ (tbl : DynamoTable) (route : Route) (rest : List Route),
      DynamoStorage.save_routes tbl (route :: rest) =
        .error (.attributeError "Route" "duration_in_traffic_s")) ∧
    SQLiteStorage.save_routes { routes := [{ route_id := "old-route" }] }
      [{ route_id := "parleys-wolfcreek", name := "Parley's / Wolf Creek",
         color := "#3b82f6", origin := "Riverton, UT", destination := "Hanna, UT",
         polyline := "_qo]_qo]", distance_m := 145000, duration_s := 7200 }] =
      .error (.attributeError "Route" "duration_in_traffic_s") ∧
    SQLiteStorage.get_routes { routes := [{ route_id := "old-route" }] } =
      [{ route_id := "old-route" }] ∧
    DynamoStorage.save_routes
      [{ PK := "ROUTE#old-route", SK := "META", GSI1PK := some "ROUTE",
         GSI1SK := some "old-route", attrs := [("route_id", DVal.S "old-route")] }]
      [] =
      .ok [{ PK := "ROUTE#old-route", SK := "META", GSI1PK := some "ROUTE",
             GSI1SK := some "old-route", attrs := [("route_id", DVal.S "old-route")] }] ∧
    DynamoStorage.get_routes
      [{ PK := "ROUTE#old-route", SK := "META", GSI1PK := some "ROUTE",
         GSI1SK := some "old-route", attrs := [("route_id", DVal.S "old-route")] }] =
      [{ route_id := "old-route" }] :=
  ⟨fun _ _ _ => rfl, fun _ _ _ => rfl, rfl, rfl, rfl, rfl⟩

/- ------------------------- Cycle isolation (C2) ------------------------- -/

/-- Counterexample to C2 as stated: on the Dynamo backend the primary key
of an event item is `("EVENT#" ++ id, "META")`, independent of the cycle,
so saving a batch containing event id "1001" for cycle "c1" and then a
batch with the same event id for cycle "c2" overwrites the first item; the
cycle-scoped read for "c1" then returns the empty list instead of the batch
that was saved for it (the event now surfaces only under "c2"). -/
theorem dynamo_get_events_misses_overwritten_event :
    DynamoStorage.get_events
      (DynamoStorage.save_events
        (DynamoStorage.save_events [] "c1" [{ id := "1001", event_type := "construction" }])
        "c2" [{ id := "1001", event_type := "accidentsAndIncidents" }]) "c1" = [] ∧
    DynamoStorage.get_events
      (DynamoStorage.save_events
        (DynamoStorage.save_events [] "c1" [{ id := "1001", event_type := "construction" }])
        "c2" [{ id := "1001", event_type := "accidentsAndIncidents" }]) "c2" =
      [{ id := "1001", event_type := "accidentsAndIncidents" }] := by
  constructor <;> rfl

/- ---------------- Cycle isolation, amended (C2) ---------------- -/

theorem queryGSI_eq_pred (tbl : DynamoTable) (pk pre : String) :
    queryGSI tbl pk pre = (tbl.filter (gsiPred pk pre)).insertionSort
      (fun a b => strLe (a.GSI1SK.getD "") (b.GSI1SK.getD "") = true) := rfl

theorem gsiPred_true {pk : String} (pre : String) {it : DItem} {sk : String}
    (hpk : it.GSI1PK = some pk) (hsk : it.GSI1SK = some sk)
    (hpre : beginsWith sk pre = true) : gsiPred pk pre it = true := by
  unfold gsiPred
  rw [hpk, hsk]
  simp [hpre]

theorem gsiPred_false_of_pk {pk pre : String} {it : DItem}
    (hpk : it.GSI1PK ≠ some pk) : gsiPred pk pre it = false := by
  unfold gsiPred
  have h : (it.GSI1PK == some pk) = false := beq_eq_false_iff_ne.mpr hpk
  rw [h, Bool.false_and]

theorem gsiPred_false_of_sk {pk pre : String} {it : DItem} {sk : String}
    (hsk : it.GSI1SK = some sk) (hpre : beginsWith sk pre = false) :
    gsiPred pk pre it = false := by
  unfold gsiPred
  rw [hsk]
  simp [hpre]

/-- An item of `put_item`'s result is the new item or an item of the old
table. -/
theorem mem_putItem {tbl : DynamoTable} {it j : DItem} (h : j ∈ putItem tbl it) :
    j = it ∨ j ∈ tbl := by
  unfold putItem at h
  split at h
  · rcases List.mem_map.mp h with ⟨x, hx, rfl⟩
    split
    · exact Or.inl rfl
    · exact Or.inr hx
  · rcases List.mem_append.mp h with h' | h'
    · exact Or.inr h'
    · exact Or.inl (List.mem_singleton.mp h')

theorem mem_foldl_putItem {α : Type} (mk : α → DItem) :
    ∀ (l : List α) (tbl : DynamoTable) (j : DItem),
      j ∈ l.foldl (fun t a => putItem t (mk a)) tbl → j ∈ tbl ∨ ∃ a ∈ l, j = mk a
  | [], _, _, h => Or.inl h
  | a :: l, tbl, j, h => by
    simp only [List.foldl_cons] at h
    rcases mem_foldl_putItem mk l (putItem tbl (mk a)) j h with h' | ⟨b, hb, rfl⟩
    · rcases mem_putItem h' with h'' | h''
      · exact Or.inr ⟨a, List.mem_cons_self a l, h''⟩
      · exact Or.inl h''
    · exact Or.inr ⟨b, List.mem_cons_of_mem _ hb, rfl⟩

theorem keysNodup_nil : keysNodup [] := List.nodup_nil

theorem keysNodup_putItem {tbl : DynamoTable} (h : keysNodup tbl) (it : DItem) :
    keysNodup (putItem tbl it) := by
  unfold putItem
  split
  · unfold keysNodup
    have hmap : (tbl.map (fun j => if j.PK = it.PK ∧ j.SK = it.SK then it else j)).map
        (fun j => (j.PK, j.SK)) = tbl.map (fun j => (j.PK, j.SK)) := by
      rw [List.map_map]
      apply List.map_congr_left
      intro x _
      by_cases hk : x.PK = it.PK ∧ x.SK = it.SK
      · simp only [Function.comp_apply]
        rw [if_pos hk, hk.1, hk.2]
      · simp only [Function.comp_apply, if_neg hk]
    rw [hmap]
    exact h
  · next hany =>
      unfold keysNodup
      simp only [List.map_append, List.map_cons, List.map_nil]
      rw [List.nodup_append]
      refine ⟨h, List.nodup_singleton _, ?_⟩
      intro k hk1 hk2
      rcases List.mem_map.mp hk1 with ⟨x, hx, rfl⟩
      have hk := List.mem_singleton.mp hk2
      apply hany
      rw [List.any_eq_true]
      refine ⟨x, hx, ?_⟩
      simp only [decide_eq_true_eq]
      exact ⟨congrArg Prod.fst hk, congrArg Prod.snd hk⟩

theorem keysNodup_foldl {α : Type} (mk : α → DItem) :
    ∀ (l : List α) (tbl : DynamoTable), keysNodup tbl →
      keysNodup (l.foldl (fun t a => putItem t (mk a)) tbl)
  | [], _, h => h
  | a :: l, tbl, h => by
    simp only [List.foldl_cons]
    exact keysNodup_foldl mk l (putItem tbl (mk a)) (keysNodup_putItem h (mk a))

/-- Replacing the item at a key no query-matching item holds, by an item
that does not match the query, leaves the query result unchanged. -/
theorem filter_map_replace (p : DItem → Bool) (it : DItem) (hit : p it = false) :
    ∀ (tbl : DynamoTable),
      (∀ j ∈ tbl, p j = true → ¬(j.PK = it.PK ∧ j.SK = it.SK)) →
      (tbl.map (fun j => if j.PK = it.PK ∧ j.SK = it.SK then it else j)).filter p =
        tbl.filter p
  | [], _ => rfl
  | x :: tbl, hsafe => by
    have hrec := filter_map_replace p it hit tbl
      (fun j hj => hsafe j (List.mem_cons_of_mem _ hj))
    simp only [List.map_cons, List.filter_cons]
    by_cases hk : x.PK = it.PK ∧ x.SK = it.SK
    · have hx : p x = false := by
        cases hpx : p x with
        | false => rfl
        | true => exact absurd hk (hsafe x (List.mem_cons_self x tbl) hpx)
      rw [if_pos hk]
      simp only [hit, hx, Bool.false_eq_true, if_false]
      exact hrec
    · rw [if_neg hk, hrec]

theorem putItem_filter_of_not_matching (p : DItem → Bool) (tbl : DynamoTable)
    (it : DItem) (hit : p it = false)
    (hsafe : ∀ j ∈ tbl, p j = true → ¬(j.PK = it.PK ∧ j.SK = it.SK)) :
    (putItem tbl it).filter p = tbl.filter p := by
  unfold putItem
  split
  · exact filter_map_replace p it hit tbl hsafe
  · rw [List.filter_append]
    simp [hit]

theorem foldl_putItem_filter_of_not_matching {α : Type} (mk : α → DItem)
    (p : DItem → Bool) :
    ∀ (l : List α) (tbl : DynamoTable),
      (∀ a ∈ l, p (mk a) = false) →
      (∀ j ∈ tbl, p j = true → ∀ a ∈ l, ¬(j.PK = (mk a).PK ∧ j.SK = (mk a).SK)) →
      (l.foldl (fun t a => putItem t (mk a)) tbl).filter p = tbl.filter p
  | [], _, _, _ => rfl
  | a :: l, tbl, hmk, hsafe => by
    simp only [List.foldl_cons]
    rw [foldl_putItem_filter_of_not_matching mk p l (putItem tbl (mk a))
        (fun b hb => hmk b (List.mem_cons_of_mem _ hb))
        (fun j hj hpj b hb => by
          rcases mem_putItem hj with rfl | hj'
          · rw [hmk a (List.mem_cons_self a l)] at hpj
            exact absurd hpj (by simp)
          · exact hsafe j hj' hpj b (List.mem_cons_of_mem _ hb))]
    exact putItem_filter_of_not_matching p tbl (mk a) (hmk a (List.mem_cons_self a l))
      (fun j hj hpj => hsafe j hj hpj a (List.mem_cons_self a l))

/-- Putting a query-matching item whose key is held by no query-matching
item adds it to the query result, up to permutation: either the key is
fresh and the item is appended, or it overwrites the single non-matching
item holding the key. -/
theorem filter_map_replace_perm (p : DItem → Bool) (it : DItem) (hit : p it = true) :
    ∀ (tbl : DynamoTable), keysNodup tbl →
      (∀ j ∈ tbl, p j = true → ¬(j.PK = it.PK ∧ j.SK = it.SK)) →
      tbl.any (fun j => decide (j.PK = it.PK ∧ j.SK = it.SK)) = true →
      List.Perm
        ((tbl.map (fun j => if j.PK = it.PK ∧ j.SK = it.SK then it else j)).filter p)
        (it :: tbl.filter p)
  | [], _, _, hany => by simp at hany
  | x :: tbl, hnd, hsafe, hany => by
    have hndtail : keysNodup tbl := by
      unfold keysNodup at hnd ⊢
      rw [List.map_cons, List.nodup_cons] at hnd
      exact hnd.2
    simp only [List.map_cons, List.filter_cons]
    by_cases hk : x.PK = it.PK ∧ x.SK = it.SK
    · have hx : p x = false := by
        cases hpx : p x with
        | false => rfl
        | true => exact absurd hk (hsafe x (List.mem_cons_self x tbl) hpx)
      have hnone : ∀ j ∈ tbl, ¬(j.PK = it.PK ∧ j.SK = it.SK) := by
        intro j hj hjk
        unfold keysNodup at hnd
        rw [List.map_cons, List.nodup_cons] at hnd
        apply hnd.1
        have hkey : (x.PK, x.SK) = (j.PK, j.SK) := by
          rw [hk.1, hk.2, hjk.1, hjk.2]
        rw [hkey]
        exact List.mem_map_of_mem _ hj
      have hmap : tbl.map (fun j => if j.PK = it.PK ∧ j.SK = it.SK then it else j) =
          tbl := by
        trans (tbl.map id)
        · exact List.map_congr_left (fun j hj => if_neg (hnone j hj))
        · exact List.map_id _
      rw [if_pos hk, hmap]
      simp [hit, hx]
    · rw [if_neg hk]
      have hany' : tbl.any (fun j => decide (j.PK = it.PK ∧ j.SK = it.SK)) = true := by
        simp only [List.any_cons] at hany
        rcases Bool.or_eq_true_iff.mp hany with h | h
        · exact absurd (of_decide_eq_true h) hk
        · exact h
      have hrec := filter_map_replace_perm p it hit tbl hndtail
        (fun j hj => hsafe j (List.mem_cons_of_mem _ hj)) hany'
      cases hpx : p x with
      | true =>
        simp only [hpx, if_pos rfl]
        exact (List.Perm.cons x hrec).trans (List.Perm.swap it x _)
      | false =>
        simp only [hpx, Bool.false_eq_true, if_false]
        exact hrec

theorem putItem_filter_perm_of_matching (p : DItem → Bool) (it : DItem)
    (hit : p it = true) (tbl : DynamoTable) (hnd : keysNodup tbl)
    (hsafe : ∀ j ∈ tbl, p j = true → ¬(j.PK = it.PK ∧ j.SK = it.SK)) :
    List.Perm ((putItem tbl it).filter p) (it :: tbl.filter p) := by
  unfold putItem
  cases hany : tbl.any (fun j => decide (j.PK = it.PK ∧ j.SK = it.SK)) with
  | true =>
    rw [if_pos rfl]
    exact filter_map_replace_perm p it hit tbl hnd hsafe hany
  | false =>
    rw [if_neg Bool.false_ne_true, List.filter_append]
    have hone : List.filter p [it] = [it] := by simp [hit]
    rw [hone]
    exact List.perm_append_singleton it _

/-- Folding query-matching puts with pairwise-distinct keys over a table
whose query-matching items hold none of those keys appends the put items to
the query result, up to permutation. -/
theorem foldl_putItem_filter_perm {α : Type} (mk : α → DItem) (p : DItem → Bool) :
    ∀ (l : List α) (tbl : DynamoTable), keysNodup tbl →
      (∀ a ∈ l, p (mk a) = true) →
      (l.map (fun a => ((mk a).PK, (mk a).SK))).Nodup →
      (∀ a ∈ l, ∀ j ∈ tbl, p j = true → ¬(j.PK = (mk a).PK ∧ j.SK = (mk a).SK)) →
      List.Perm ((l.foldl (fun t a => putItem t (mk a)) tbl).filter p)
        (tbl.filter p ++ l.map mk)
  | [], tbl, _, _, _, _ => by simp
  | a :: l, tbl, hnd, hmk, hknd, hsafe => by
    simp only [List.foldl_cons, List.map_cons]
    have hknd' := hknd
    rw [List.map_cons, List.nodup_cons] at hknd'
    have hstep := putItem_filter_perm_of_matching p (mk a)
      (hmk a (List.mem_cons_self a l)) tbl hnd
      (fun j hj hpj => hsafe a (List.mem_cons_self a l) j hj hpj)
    have hrec := foldl_putItem_filter_perm mk p l (putItem tbl (mk a))
      (keysNodup_putItem hnd (mk a))
      (fun b hb => hmk b (List.mem_cons_of_mem _ hb))
      hknd'.2
      (fun b hb j hj hpj => by
        rcases mem_putItem hj with rfl | hj'
        · intro hkey
          apply hknd'.1
          have hkk : ((mk a).PK, (mk a).SK) = ((mk b).PK, (mk b).SK) := by
            rw [hkey.1, hkey.2]
          rw [hkk]
          exact List.mem_map_of_mem _ hb
        · exact hsafe b (List.mem_cons_of_mem _ hb) j hj' hpj)
    refine hrec.trans ?_
    refine (hstep.append_right (l.map mk)).trans ?_
    simp only [List.cons_append]
    exact (List.perm_middle).symm

theorem string_append_right_inj {p a b : String} (h : p ++ a = p ++ b) : a = b := by
  have h2 := congrArg String.data h
  rw [String.data_append, String.data_append] at h2
  exact String.ext (List.append_cancel_left h2)

theorem append_ne_of_data {p q : String} {c d : Char} {cs ds : List Char}
    (hp : p.data = c :: cs) (hq : q.data = d :: ds) (hcd : c ≠ d) (x y : String) :
    p ++ x ≠ q ++ y := by
  intro h
  have h2 := congrArg String.data h
  rw [String.data_append, String.data_append, hp, hq] at h2
  simp only [List.cons_append, List.cons.injEq] at h2
  exact hcd h2.1

theorem beginsWith_append (p x : String) : beginsWith (p ++ x) p = true := by
  simp only [beginsWith, List.isPrefixOf_iff_prefix, String.data_append]
  exact List.prefix_append _ _

theorem not_beginsWith_of_data {p q : String} {c d : Char} {cs ds : List Char}
    (hp : p.data = c :: cs) (hq : q.data = d :: ds) (hcd : c ≠ d) (x : String) :
    beginsWith (p ++ x) q = false := by
  simp only [beginsWith, String.data_append, hp, hq, List.cons_append]
  rw [List.isPrefixOf]
  have hdc : (d == c) = false := by
    simp only [beq_eq_false_iff_ne, ne_eq]
    exact fun hdc => hcd hdc.symm
  simp [hdc]

theorem filter_map_all_true {α β : Type} (f : α → β) (p : β → Bool) (l : List α)
    (h : ∀ a ∈ l, p (f a) = true) : (l.map f).filter p = l.map f :=
  List.filter_eq_self.mpr (by
    intro b hb
    rcases List.mem_map.mp hb with ⟨a, ha, rfl⟩
    exact h a ha)

theorem filter_map_all_false {α β : Type} (f : α → β) (p : β → Bool) (l : List α)
    (h : ∀ a ∈ l, p (f a) = false) : (l.map f).filter p = [] := by
  rw [List.filter_eq_nil_iff]
  intro b hb
  rcases List.mem_map.mp hb with ⟨a, ha, rfl⟩
  simp [h a ha]

theorem itemToEvent_eventItem (c : String) (e : Event) :
    DynamoStorage.itemToEvent (DynamoStorage.eventItem c e) = e := by
  obtain ⟨id, et, est, rn, dir, desc, sev, lat, lon, ifc⟩ := e
  cases lat <;> cases lon <;>
    simp [DynamoStorage.itemToEvent, DynamoStorage.eventItem, stripNone, dGetStr,
      dGetOptStr, dGet, dGetBool, dFloatSafe, List.find?]

theorem itemToCondition_conditionItem (c : String) (x : RoadCondition) :
    DynamoStorage.itemToCondition (DynamoStorage.conditionItem c x) = x := by
  obtain ⟨i, rn, rc, wc, res, ep, lu⟩ := x
  simp [DynamoStorage.itemToCondition, DynamoStorage.conditionItem, stripNone,
    dGetStr, dGetInt, dGet, List.find?]

theorem itemToWeather_weatherItem (c : String) (w : WeatherStation) :
    DynamoStorage.itemToWeather (DynamoStorage.weatherItem c w) = w := by
  obtain ⟨i, sn, at', st, ss, wsa, wsg, wd, pr, rh⟩ := w
  simp [DynamoStorage.itemToWeather, DynamoStorage.weatherItem, stripNone,
    dGetStr, dGetInt, dGet, List.find?]

theorem cycle_pk_ne {c c' : String} (hc : c ≠ c') :
    (some ("CYCLE#" ++ c) : Option String) ≠ some ("CYCLE#" ++ c') := by
  intro h
  exact hc (string_append_right_inj (Option.some.injEq _ _ ▸ h))

theorem mem_save_road_conditions {tbl : DynamoTable} {c : String}
    {conds : List RoadCondition} {j : DItem}
    (h : j ∈ DynamoStorage.save_road_conditions tbl c conds) :
    j ∈ tbl ∨ ∃ x ∈ conds, j = DynamoStorage.conditionItem c x :=
  mem_foldl_putItem _ conds tbl j h

theorem mem_save_events {tbl : DynamoTable} {c : String} {evs : List Event}
    {j : DItem} (h : j ∈ DynamoStorage.save_events tbl c evs) :
    j ∈ tbl ∨ ∃ e ∈ evs, j = DynamoStorage.eventItem c e :=
  mem_foldl_putItem _ evs tbl j h

theorem mem_save_weather {tbl : DynamoTable} {c : String}
    {ws : List WeatherStation} {j : DItem}
    (h : j ∈ DynamoStorage.save_weather tbl c ws) :
    j ∈ tbl ∨ ∃ w ∈ ws, j = DynamoStorage.weatherItem c w :=
  mem_foldl_putItem _ ws tbl j h

theorem keysNodup_save_road_conditions {tbl : DynamoTable} {c : String}
    {conds : List RoadCondition} (h : keysNodup tbl) :
    keysNodup (DynamoStorage.save_road_conditions tbl c conds) :=
  keysNodup_foldl _ conds tbl h

theorem keysNodup_save_events {tbl : DynamoTable} {c : String} {evs : List Event}
    (h : keysNodup tbl) : keysNodup (DynamoStorage.save_events tbl c evs) :=
  keysNodup_foldl _ evs tbl h

theorem keysNodup_save_weather {tbl : DynamoTable} {c : String}
    {ws : List WeatherStation} (h : keysNodup tbl) :
    keysNodup (DynamoStorage.save_weather tbl c ws) :=
  keysNodup_foldl _ ws tbl h

theorem save_road_conditions_filter_of_not_matching (c : String) (p : DItem → Bool)
    (conds : List RoadCondition) (tbl : DynamoTable)
    (hmk : ∀ x ∈ conds, p (DynamoStorage.conditionItem c x) = false)
    (hsafe : ∀ j ∈ tbl, p j = true → ∀ x ∈ conds,
      ¬(j.PK = (DynamoStorage.conditionItem c x).PK ∧
        j.SK = (DynamoStorage.conditionItem c x).SK)) :
    (DynamoStorage.save_road_conditions tbl c conds).filter p = tbl.filter p :=
  foldl_putItem_filter_of_not_matching _ p conds tbl hmk hsafe

theorem save_events_filter_of_not_matching (c : String) (p : DItem → Bool)
    (evs : List Event) (tbl : DynamoTable)
    (hmk : ∀ e ∈ evs, p (DynamoStorage.eventItem c e) = false)
    (hsafe : ∀ j ∈ tbl, p j = true → ∀ e ∈ evs,
      ¬(j.PK = (DynamoStorage.eventItem c e).PK ∧
        j.SK = (DynamoStorage.eventItem c e).SK)) :
    (DynamoStorage.save_events tbl c evs).filter p = tbl.filter p :=
  foldl_putItem_filter_of_not_matching _ p evs tbl hmk hsafe

theorem save_weather_filter_of_not_matching (c : String) (p : DItem → Bool)
    (ws : List WeatherStation) (tbl : DynamoTable)
    (hmk : ∀ w ∈ ws, p (DynamoStorage.weatherItem c w) = false)
    (hsafe : ∀ j ∈ tbl, p j = true → ∀ w ∈ ws,
      ¬(j.PK = (DynamoStorage.weatherItem c w).PK ∧
        j.SK = (DynamoStorage.weatherItem c w).SK)) :
    (DynamoStorage.save_weather tbl c ws).filter p = tbl.filter p :=
  foldl_putItem_filter_of_not_matching _ p ws tbl hmk hsafe

theorem save_road_conditions_filter_perm (c : String) (p : DItem → Bool)
    (conds : List RoadCondition) (tbl : DynamoTable) (hnd : keysNodup tbl)
    (hmk : ∀ x ∈ conds, p (DynamoStorage.conditionItem c x) = true)
    (hkeys : (conds.map (fun x => ((DynamoStorage.conditionItem c x).PK,
      (DynamoStorage.conditionItem c x).SK))).Nodup)
    (hsafe : ∀ x ∈ conds, ∀ j ∈ tbl, p j = true →
      ¬(j.PK = (DynamoStorage.conditionItem c x).PK ∧
        j.SK = (DynamoStorage.conditionItem c x).SK)) :
    List.Perm ((DynamoStorage.save_road_conditions tbl c conds).filter p)
      (tbl.filter p ++ conds.map (DynamoStorage.conditionItem c)) :=
  foldl_putItem_filter_perm _ p conds tbl hnd hmk hkeys hsafe

theorem save_events_filter_perm (c : String) (p : DItem → Bool)
    (evs : List Event) (tbl : DynamoTable) (hnd : keysNodup tbl)
    (hmk : ∀ e ∈ evs, p (DynamoStorage.eventItem c e) = true)
    (hkeys : (evs.map (fun e => ((DynamoStorage.eventItem c e).PK,
      (DynamoStorage.eventItem c e).SK))).Nodup)
    (hsafe : ∀ e ∈ evs, ∀ j ∈ tbl, p j = true →
      ¬(j.PK = (DynamoStorage.eventItem c e).PK ∧
        j.SK = (DynamoStorage.eventItem c e).SK)) :
    List.Perm ((DynamoStorage.save_events tbl c evs).filter p)
      (tbl.filter p ++ evs.map (DynamoStorage.eventItem c)) :=
  foldl_putItem_filter_perm _ p evs tbl hnd hmk hkeys hsafe

theorem save_weather_filter_perm (c : String) (p : DItem → Bool)
    (ws : List WeatherStation) (tbl : DynamoTable) (hnd : keysNodup tbl)
    (hmk : ∀ w ∈ ws, p (DynamoStorage.weatherItem c w) = true)
    (hkeys : (ws.map (fun w => ((DynamoStorage.weatherItem c w).PK,
      (DynamoStorage.weatherItem c w).SK))).Nodup)
    (hsafe : ∀ w ∈ ws, ∀ j ∈ tbl, p j = true →
      ¬(j.PK = (DynamoStorage.weatherItem c w).PK ∧
        j.SK = (DynamoStorage.weatherItem c w).SK)) :
    List.Perm ((DynamoStorage.save_weather tbl c ws).filter p)
      (tbl.filter p ++ ws.map (DynamoStorage.weatherItem c)) :=
  foldl_putItem_filter_perm _ p ws tbl hnd hmk hkeys hsafe

theorem condKeysNodup (c : String) {l : List RoadCondition}
    (h : (l.map RoadCondition.roadway_name).Nodup) :
    (l.map (fun x => ((DynamoStorage.conditionItem c x).PK,
      (DynamoStorage.conditionItem c x).SK))).Nodup := by
  have heq : (l.map RoadCondition.roadway_name).map
      (fun n => (("CONDITION#" ++ n : String), c)) =
      l.map (fun x => ((DynamoStorage.conditionItem c x).PK,
        (DynamoStorage.conditionItem c x).SK)) := by
    rw [List.map_map]
    exact List.map_congr_left fun x _ => rfl
  rw [← heq]
  exact h.map (fun a b hab => string_append_right_inj (congrArg Prod.fst hab))

theorem evKeysNodup (c : String) {l : List Event} (h : (l.map Event.id).Nodup) :
    (l.map (fun e => ((DynamoStorage.eventItem c e).PK,
      (DynamoStorage.eventItem c e).SK))).Nodup := by
  have heq : (l.map Event.id).map
      (fun i => (("EVENT#" ++ i : String), ("META" : String))) =
      l.map (fun e => ((DynamoStorage.eventItem c e).PK,
        (DynamoStorage.eventItem c e).SK)) := by
    rw [List.map_map]
    exact List.map_congr_left fun e _ => rfl
  rw [← heq]
  exact h.map (fun a b hab => string_append_right_inj (congrArg Prod.fst hab))

theorem wsKeysNodup (c : String) {l : List WeatherStation}
    (h : (l.map WeatherStation.station_name).Nodup) :
    (l.map (fun w => ((DynamoStorage.weatherItem c w).PK,
      (DynamoStorage.weatherItem c w).SK))).Nodup := by
  have heq : (l.map WeatherStation.station_name).map
      (fun n => (("WEATHER#" ++ n : String), c)) =
      l.map (fun w => ((DynamoStorage.weatherItem c w).PK,
        (DynamoStorage.weatherItem c w).SK)) := by
    rw [List.map_map]
    exact List.map_congr_left fun w _ => rfl
  rw [← heq]
  exact h.map (fun a b hab => string_append_right_inj (congrArg Prod.fst hab))



/-- Conditions of the first cycle on Dynamo: with the batch's roadway
names pairwise distinct the read returns the batch as a multiset, whatever
the other five batches contain. -/
theorem dynamo_conditions_c1_perm (c1 c2 : String)
    (conds1 conds2 : List RoadCondition) (evs1 evs2 : List Event)
    (ws1 ws2 : List WeatherStation) (hc : c1 ≠ c2)
    (hcond1 : (conds1.map RoadCondition.roadway_name).Nodup) :
    List.Perm (DynamoStorage.get_road_conditions
      (DynamoStorage.save_weather (DynamoStorage.save_events
        (DynamoStorage.save_road_conditions (DynamoStorage.save_weather
          (DynamoStorage.save_events
            (DynamoStorage.save_road_conditions [] c1 conds1) c1 evs1) c1 ws1)
          c2 conds2) c2 evs2) c2 ws2) c1) conds1 := by
  simp only [DynamoStorage.get_road_conditions, queryGSI_eq_pred]
  set T1 := DynamoStorage.save_road_conditions [] c1 conds1 with hT1
  set T2 := DynamoStorage.save_events T1 c1 evs1 with hT2
  set T3 := DynamoStorage.save_weather T2 c1 ws1 with hT3
  set T4 := DynamoStorage.save_road_conditions T3 c2 conds2 with hT4
  set T5 := DynamoStorage.save_events T4 c2 evs2 with hT5
  set T6 := DynamoStorage.save_weather T5 c2 ws2 with hT6
  have mem1 : ∀ j ∈ T1, ∃ x ∈ conds1, j = DynamoStorage.conditionItem c1 x := by
    intro j hj
    rw [hT1] at hj
    rcases mem_save_road_conditions hj with h0 | h
    · exact absurd h0 (List.not_mem_nil j)
    · exact h
  have mem2 : ∀ j ∈ T2, (∃ x ∈ conds1, j = DynamoStorage.conditionItem c1 x) ∨
      (∃ e ∈ evs1, j = DynamoStorage.eventItem c1 e) := by
    intro j hj
    rw [hT2] at hj
    rcases mem_save_events hj with h | h
    · exact Or.inl (mem1 j h)
    · exact Or.inr h
  have mem3 : ∀ j ∈ T3, (∃ x ∈ conds1, j = DynamoStorage.conditionItem c1 x) ∨
      (∃ e ∈ evs1, j = DynamoStorage.eventItem c1 e) ∨
      (∃ w ∈ ws1, j = DynamoStorage.weatherItem c1 w) := by
    intro j hj
    rw [hT3] at hj
    rcases mem_save_weather hj with h | h
    · rcases mem2 j h with h' | h'
      · exact Or.inl h'
      · exact Or.inr (Or.inl h')
    · exact Or.inr (Or.inr h)
  have mem4 : ∀ j ∈ T4, (∃ x ∈ conds1, j = DynamoStorage.conditionItem c1 x) ∨
      (∃ e ∈ evs1, j = DynamoStorage.eventItem c1 e) ∨
      (∃ w ∈ ws1, j = DynamoStorage.weatherItem c1 w) ∨
      (∃ x ∈ conds2, j = DynamoStorage.conditionItem c2 x) := by
    intro j hj
    rw [hT4] at hj
    rcases mem_save_road_conditions hj with h | h
    · rcases mem3 j h with h' | h' | h'
      · exact Or.inl h'
      · exact Or.inr (Or.inl h')
      · exact Or.inr (Or.inr (Or.inl h'))
    · exact Or.inr (Or.inr (Or.inr h))
  have mem5 : ∀ j ∈ T5, (∃ x ∈ conds1, j = DynamoStorage.conditionItem c1 x) ∨
      (∃ e ∈ evs1, j = DynamoStorage.eventItem c1 e) ∨
      (∃ w ∈ ws1, j = DynamoStorage.weatherItem c1 w) ∨
      (∃ x ∈ conds2, j = DynamoStorage.conditionItem c2 x) ∨
      (∃ e ∈ evs2, j = DynamoStorage.eventItem c2 e) := by
    intro j hj
    rw [hT5] at hj
    rcases mem_save_events hj with h | h
    · rcases mem4 j h with h' | h' | h' | h'
      · exact Or.inl h'
      · exact Or.inr (Or.inl h')
      · exact Or.inr (Or.inr (Or.inl h'))
      · exact Or.inr (Or.inr (Or.inr (Or.inl h')))
    · exact Or.inr (Or.inr (Or.inr (Or.inr h)))
  have fc1 : ∀ x : RoadCondition,
      gsiPred ("CYCLE#" ++ c1) "CONDITION#" (DynamoStorage.conditionItem c1 x) = true :=
    fun x => gsiPred_true "CONDITION#" rfl rfl (beginsWith_append _ _)
  have fe1 : ∀ e : Event,
      gsiPred ("CYCLE#" ++ c1) "CONDITION#" (DynamoStorage.eventItem c1 e) = false :=
    fun e => gsiPred_false_of_sk rfl (not_beginsWith_of_data rfl rfl (by decide) e.id)
  have fw1 : ∀ w : WeatherStation,
      gsiPred ("CYCLE#" ++ c1) "CONDITION#" (DynamoStorage.weatherItem c1 w) = false :=
    fun w => gsiPred_false_of_sk rfl
      (not_beginsWith_of_data rfl rfl (by decide) w.station_name)
  have fc2 : ∀ x : RoadCondition,
      gsiPred ("CYCLE#" ++ c1) "CONDITION#" (DynamoStorage.conditionItem c2 x) = false :=
    fun x => gsiPred_false_of_pk (fun hcontra => cycle_pk_ne (Ne.symm hc) hcontra)
  have fe2 : ∀ e : Event,
      gsiPred ("CYCLE#" ++ c1) "CONDITION#" (DynamoStorage.eventItem c2 e) = false :=
    fun e => gsiPred_false_of_pk (fun hcontra => cycle_pk_ne (Ne.symm hc) hcontra)
  have fw2 : ∀ w : WeatherStation,
      gsiPred ("CYCLE#" ++ c1) "CONDITION#" (DynamoStorage.weatherItem c2 w) = false :=
    fun w => gsiPred_false_of_pk (fun hcontra => cycle_pk_ne (Ne.symm hc) hcontra)
  have hperm1 : List.Perm (T1.filter (gsiPred ("CYCLE#" ++ c1) "CONDITION#"))
      (conds1.map (DynamoStorage.conditionItem c1)) := by
    rw [hT1]
    have h := save_road_conditions_filter_perm c1
      (gsiPred ("CYCLE#" ++ c1) "CONDITION#") conds1 [] keysNodup_nil
      (fun x _ => fc1 x) (condKeysNodup c1 hcond1)
      (fun x _ j hj => absurd hj (List.not_mem_nil j))
    simpa using h
  have peel2 : T2.filter (gsiPred ("CYCLE#" ++ c1) "CONDITION#") =
      T1.filter (gsiPred ("CYCLE#" ++ c1) "CONDITION#") := by
    rw [hT2]
    refine save_events_filter_of_not_matching c1 _ evs1 T1 (fun e _ => fe1 e) ?_
    intro j hj hpj e he
    rcases mem1 j hj with ⟨x1, hx1, rfl⟩
    exact fun hand => append_ne_of_data rfl rfl (by decide) x1.roadway_name e.id hand.1
  have peel3 : T3.filter (gsiPred ("CYCLE#" ++ c1) "CONDITION#") =
      T2.filter (gsiPred ("CYCLE#" ++ c1) "CONDITION#") := by
    rw [hT3]
    refine save_weather_filter_of_not_matching c1 _ ws1 T2 (fun w _ => fw1 w) ?_
    intro j hj hpj w hw
    rcases mem2 j hj with ⟨x1, hx1, rfl⟩ | ⟨e1, he1, rfl⟩
    · exact fun hand =>
        append_ne_of_data rfl rfl (by decide) x1.roadway_name w.station_name hand.1
    · rw [fe1 e1] at hpj
      exact absurd hpj (by simp)
  have peel4 : T4.filter (gsiPred ("CYCLE#" ++ c1) "CONDITION#") =
      T3.filter (gsiPred ("CYCLE#" ++ c1) "CONDITION#") := by
    rw [hT4]
    refine save_road_conditions_filter_of_not_matching c2 _ conds2 T3 (fun x _ => fc2 x) ?_
    intro j hj hpj x hx
    rcases mem3 j hj with ⟨x1, hx1, rfl⟩ | ⟨e1, he1, rfl⟩ | ⟨w1, hw1, rfl⟩
    · exact fun hand => hc hand.2
    · rw [fe1 e1] at hpj
      exact absurd hpj (by simp)
    · rw [fw1 w1] at hpj
      exact absurd hpj (by simp)
  have peel5 : T5.filter (gsiPred ("CYCLE#" ++ c1) "CONDITION#") =
      T4.filter (gsiPred ("CYCLE#" ++ c1) "CONDITION#") := by
    rw [hT5]
    refine save_events_filter_of_not_matching c2 _ evs2 T4 (fun e _ => fe2 e) ?_
    intro j hj hpj e he
    rcases mem4 j hj with ⟨x1, hx1, rfl⟩ | ⟨e1, he1, rfl⟩ | ⟨w1, hw1, rfl⟩ | ⟨x2, hx2, rfl⟩
    · exact fun hand => append_ne_of_data rfl rfl (by decide) x1.roadway_name e.id hand.1
    · rw [fe1 e1] at hpj
      exact absurd hpj (by simp)
    · rw [fw1 w1] at hpj
      exact absurd hpj (by simp)
    · rw [fc2 x2] at hpj
      exact absurd hpj (by simp)
  have peel6 : T6.filter (gsiPred ("CYCLE#" ++ c1) "CONDITION#") =
      T5.filter (gsiPred ("CYCLE#" ++ c1) "CONDITION#") := by
    rw [hT6]
    refine save_weather_filter_of_not_matching c2 _ ws2 T5 (fun w _ => fw2 w) ?_
    intro j hj hpj w hw
    rcases mem5 j hj with ⟨x1, hx1, rfl⟩ | ⟨e1, he1, rfl⟩ | ⟨w1, hw1, rfl⟩ |
      ⟨x2, hx2, rfl⟩ | ⟨e2, he2, rfl⟩
    · exact fun hand =>
        append_ne_of_data rfl rfl (by decide) x1.roadway_name w.station_name hand.1
    · rw [fe1 e1] at hpj
      exact absurd hpj (by simp)
    · rw [fw1 w1] at hpj
      exact absurd hpj (by simp)
    · rw [fc2 x2] at hpj
      exact absurd hpj (by simp)
    · rw [fe2 e2] at hpj
      exact absurd hpj (by simp)
  rw [peel6, peel5, peel4, peel3, peel2]
  refine ((List.perm_insertionSort _ _).map _).trans ?_
  refine (hperm1.map _).trans ?_
  rw [List.map_map]
  have hid : conds1.map (DynamoStorage.itemToCondition ∘ DynamoStorage.conditionItem c1) =
      conds1 := by
    trans (List.map id conds1)
    · exact List.map_congr_left (fun a _ => itemToCondition_conditionItem c1 a)
    · exact List.map_id _
  rw [hid]

/-- Events of the first cycle on Dynamo: with the batch's event ids
pairwise distinct and no id shared with the second cycle's batch (forced by
the cycle-independent event key the C2 counterexample exhibits), the read
returns the batch as a multiset. -/
theorem dynamo_events_c1_perm (c1 c2 : String)
    (conds1 conds2 : List RoadCondition) (evs1 evs2 : List Event)
    (ws1 ws2 : List WeatherStation) (hc : c1 ≠ c2)
    (hev1 : (evs1.map Event.id).Nodup)
    (hev12 : ∀ e1 ∈ evs1, ∀ e2 ∈ evs2, e1.id ≠ e2.id) :
    List.Perm (DynamoStorage.get_events
      (DynamoStorage.save_weather (DynamoStorage.save_events
        (DynamoStorage.save_road_conditions (DynamoStorage.save_weather
          (DynamoStorage.save_events
            (DynamoStorage.save_road_conditions [] c1 conds1) c1 evs1) c1 ws1)
          c2 conds2) c2 evs2) c2 ws2) c1) evs1 := by
  simp only [DynamoStorage.get_events, queryGSI_eq_pred]
  set T1 := DynamoStorage.save_road_conditions [] c1 conds1 with hT1
  set T2 := DynamoStorage.save_events T1 c1 evs1 with hT2
  set T3 := DynamoStorage.save_weather T2 c1 ws1 with hT3
  set T4 := DynamoStorage.save_road_conditions T3 c2 conds2 with hT4
  set T5 := DynamoStorage.save_events T4 c2 evs2 with hT5
  set T6 := DynamoStorage.save_weather T5 c2 ws2 with hT6
  have mem1 : ∀ j ∈ T1, ∃ x ∈ conds1, j = DynamoStorage.conditionItem c1 x := by
    intro j hj
    rw [hT1] at hj
    rcases mem_save_road_conditions hj with h0 | h
    · exact absurd h0 (List.not_mem_nil j)
    · exact h
  have mem2 : ∀ j ∈ T2, (∃ x ∈ conds1, j = DynamoStorage.conditionItem c1 x) ∨
      (∃ e ∈ evs1, j = DynamoStorage.eventItem c1 e) := by
    intro j hj
    rw [hT2] at hj
    rcases mem_save_events hj with h | h
    · exact Or.inl (mem1 j h)
    · exact Or.inr h
  have mem3 : ∀ j ∈ T3, (∃ x ∈ conds1, j = DynamoStorage.conditionItem c1 x) ∨
      (∃ e ∈ evs1, j = DynamoStorage.eventItem c1 e) ∨
      (∃ w ∈ ws1, j = DynamoStorage.weatherItem c1 w) := by
    intro j hj
    rw [hT3] at hj
    rcases mem_save_weather hj with h | h
    · rcases mem2 j h with h' | h'
      · exact Or.inl h'
      · exact Or.inr (Or.inl h')
    · exact Or.inr (Or.inr h)
  have mem4 : ∀ j ∈ T4, (∃ x ∈ conds1, j = DynamoStorage.conditionItem c1 x) ∨
      (∃ e ∈ evs1, j = DynamoStorage.eventItem c1 e) ∨
      (∃ w ∈ ws1, j = DynamoStorage.weatherItem c1 w) ∨
      (∃ x ∈ conds2, j = DynamoStorage.conditionItem c2 x) := by
    intro j hj
    rw [hT4] at hj
    rcases mem_save_road_conditions hj with h | h
    · rcases mem3 j h with h' | h' | h'
      · exact Or.inl h'
      · exact Or.inr (Or.inl h')
      · exact Or.inr (Or.inr (Or.inl h'))
    · exact Or.inr (Or.inr (Or.inr h))
  have mem5 : ∀ j ∈ T5, (∃ x ∈ conds1, j = DynamoStorage.conditionItem c1 x) ∨
      (∃ e ∈ evs1, j = DynamoStorage.eventItem c1 e) ∨
      (∃ w ∈ ws1, j = DynamoStorage.weatherItem c1 w) ∨
      (∃ x ∈ conds2, j = DynamoStorage.conditionItem c2 x) ∨
      (∃ e ∈ evs2, j = DynamoStorage.eventItem c2 e) := by
    intro j hj
    rw [hT5] at hj
    rcases mem_save_events hj with h | h
    · rcases mem4 j h with h' | h' | h' | h'
      · exact Or.inl h'
      · exact Or.inr (Or.inl h')
      · exact Or.inr (Or.inr (Or.inl h'))
      · exact Or.inr (Or.inr (Or.inr (Or.inl h')))
    · exact Or.inr (Or.inr (Or.inr (Or.inr h)))
  have fc1 : ∀ x : RoadCondition,
      gsiPred ("CYCLE#" ++ c1) "EVENT#" (DynamoStorage.conditionItem c1 x) = false :=
    fun x => gsiPred_false_of_sk rfl
      (not_beginsWith_of_data rfl rfl (by decide) x.roadway_name)
  have fe1 : ∀ e : Event,
      gsiPred ("CYCLE#" ++ c1) "EVENT#" (DynamoStorage.eventItem c1 e) = true :=
    fun e => gsiPred_true "EVENT#" rfl rfl (beginsWith_append _ _)
  have fw1 : ∀ w : WeatherStation,
      gsiPred ("CYCLE#" ++ c1) "EVENT#" (DynamoStorage.weatherItem c1 w) = false :=
    fun w => gsiPred_false_of_sk rfl
      (not_beginsWith_of_data rfl rfl (by decide) w.station_name)
  have fc2 : ∀ x : RoadCondition,
      gsiPred ("CYCLE#" ++ c1) "EVENT#" (DynamoStorage.conditionItem c2 x) = false :=
    fun x => gsiPred_false_of_pk (fun hcontra => cycle_pk_ne (Ne.symm hc) hcontra)
  have fe2 : ∀ e : Event,
      gsiPred ("CYCLE#" ++ c1) "EVENT#" (DynamoStorage.eventItem c2 e) = false :=
    fun e => gsiPred_false_of_pk (fun hcontra => cycle_pk_ne (Ne.symm hc) hcontra)
  have fw2 : ∀ w : WeatherStation,
      gsiPred ("CYCLE#" ++ c1) "EVENT#" (DynamoStorage.weatherItem c2 w) = false :=
    fun w => gsiPred_false_of_pk (fun hcontra => cycle_pk_ne (Ne.symm hc) hcontra)
  have hnd1 : keysNodup T1 := by
    rw [hT1]
    exact keysNodup_save_road_conditions keysNodup_nil
  have hfilterT1 : T1.filter (gsiPred ("CYCLE#" ++ c1) "EVENT#") = [] := by
    rw [List.filter_eq_nil_iff]
    intro j hj
    rcases mem1 j hj with ⟨x1, hx1, rfl⟩
    simp [fc1 x1]
  have hperm2 : List.Perm (T2.filter (gsiPred ("CYCLE#" ++ c1) "EVENT#"))
      (evs1.map (DynamoStorage.eventItem c1)) := by
    rw [hT2]
    have h := save_events_filter_perm c1 (gsiPred ("CYCLE#" ++ c1) "EVENT#") evs1 T1
      hnd1 (fun e _ => fe1 e) (evKeysNodup c1 hev1)
      (fun e he j hj hpj => by
        rcases mem1 j hj with ⟨x1, hx1, rfl⟩
        rw [fc1 x1] at hpj
        exact absurd hpj (by simp))
    rw [hfilterT1] at h
    simpa using h
  have peel3 : T3.filter (gsiPred ("CYCLE#" ++ c1) "EVENT#") =
      T2.filter (gsiPred ("CYCLE#" ++ c1) "EVENT#") := by
    rw [hT3]
    refine save_weather_filter_of_not_matching c1 _ ws1 T2 (fun w _ => fw1 w) ?_
    intro j hj hpj w hw
    rcases mem2 j hj with ⟨x1, hx1, rfl⟩ | ⟨e1, he1, rfl⟩
    · rw [fc1 x1] at hpj
      exact absurd hpj (by simp)
    · exact fun hand =>
        append_ne_of_data rfl rfl (by decide) e1.id w.station_name hand.1
  have peel4 : T4.filter (gsiPred ("CYCLE#" ++ c1) "EVENT#") =
      T3.filter (gsiPred ("CYCLE#" ++ c1) "EVENT#") := by
    rw [hT4]
    refine save_road_conditions_filter_of_not_matching c2 _ conds2 T3 (fun x _ => fc2 x) ?_
    intro j hj hpj x hx
    rcases mem3 j hj with ⟨x1, hx1, rfl⟩ | ⟨e1, he1, rfl⟩ | ⟨w1, hw1, rfl⟩
    · rw [fc1 x1] at hpj
      exact absurd hpj (by simp)
    · exact fun hand =>
        append_ne_of_data rfl rfl (by decide) e1.id x.roadway_name hand.1
    · rw [fw1 w1] at hpj
      exact absurd hpj (by simp)
  have peel5 : T5.filter (gsiPred ("CYCLE#" ++ c1) "EVENT#") =
      T4.filter (gsiPred ("CYCLE#" ++ c1) "EVENT#") := by
    rw [hT5]
    refine save_events_filter_of_not_matching c2 _ evs2 T4 (fun e _ => fe2 e) ?_
    intro j hj hpj e he
    rcases mem4 j hj with ⟨x1, hx1, rfl⟩ | ⟨e1, he1, rfl⟩ | ⟨w1, hw1, rfl⟩ | ⟨x2, hx2, rfl⟩
    · rw [fc1 x1] at hpj
      exact absurd hpj (by simp)
    · exact fun hand => hev12 e1 he1 e he (string_append_right_inj hand.1)
    · rw [fw1 w1] at hpj
      exact absurd hpj (by simp)
    · rw [fc2 x2] at hpj
      exact absurd hpj (by simp)
  have peel6 : T6.filter (gsiPred ("CYCLE#" ++ c1) "EVENT#") =
      T5.filter (gsiPred ("CYCLE#" ++ c1) "EVENT#") := by
    rw [hT6]
    refine save_weather_filter_of_not_matching c2 _ ws2 T5 (fun w _ => fw2 w) ?_
    intro j hj hpj w hw
    rcases mem5 j hj with ⟨x1, hx1, rfl⟩ | ⟨e1, he1, rfl⟩ | ⟨w1, hw1, rfl⟩ | ⟨x2, hx2, rfl⟩ | ⟨e2, he2, rfl⟩
    · rw [fc1 x1] at hpj
      exact absurd hpj (by simp)
    · exact fun hand =>
        append_ne_of_data rfl rfl (by decide) e1.id w.station_name hand.1
    · rw [fw1 w1] at hpj
      exact absurd hpj (by simp)
    · rw [fc2 x2] at hpj
      exact absurd hpj (by simp)
    · rw [fe2 e2] at hpj
      exact absurd hpj (by simp)
  rw [peel6, peel5, peel4, peel3]
  refine ((List.perm_insertionSort _ _).map _).trans ?_
  refine (hperm2.map _).trans ?_
  rw [List.map_map]
  have hid : evs1.map (DynamoStorage.itemToEvent ∘ DynamoStorage.eventItem c1) = evs1 := by
    trans (List.map id evs1)
    · exact List.map_congr_left (fun a _ => itemToEvent_eventItem c1 a)
    · exact List.map_id _
  rw [hid]

/-- Weather of the first cycle on Dynamo: with the batch's station names
pairwise distinct the read returns the batch as a multiset. -/
theorem dynamo_weather_c1_perm (c1 c2 : String)
    (conds1 conds2 : List RoadCondition) (evs1 evs2 : List Event)
    (ws1 ws2 : List WeatherStation) (hc : c1 ≠ c2)
    (hws1 : (ws1.map WeatherStation.station_name).Nodup) :
    List.Perm (DynamoStorage.get_weather
      (DynamoStorage.save_weather (DynamoStorage.save_events
        (DynamoStorage.save_road_conditions (DynamoStorage.save_weather
          (DynamoStorage.save_events
            (DynamoStorage.save_road_conditions [] c1 conds1) c1 evs1) c1 ws1)
          c2 conds2) c2 evs2) c2 ws2) c1) ws1 := by
  simp only [DynamoStorage.get_weather, queryGSI_eq_pred]
  set T1 := DynamoStorage.save_road_conditions [] c1 conds1 with hT1
  set T2 := DynamoStorage.save_events T1 c1 evs1 with hT2
  set T3 := DynamoStorage.save_weather T2 c1 ws1 with hT3
  set T4 := DynamoStorage.save_road_conditions T3 c2 conds2 with hT4
  set T5 := DynamoStorage.save_events T4 c2 evs2 with hT5
  set T6 := DynamoStorage.save_weather T5 c2 ws2 with hT6
  have mem1 : ∀ j ∈ T1, ∃ x ∈ conds1, j = DynamoStorage.conditionItem c1 x := by
    intro j hj
    rw [hT1] at hj
    rcases mem_save_road_conditions hj with h0 | h
    · exact absurd h0 (List.not_mem_nil j)
    · exact h
  have mem2 : ∀ j ∈ T2, (∃ x ∈ conds1, j = DynamoStorage.conditionItem c1 x) ∨
      (∃ e ∈ evs1, j = DynamoStorage.eventItem c1 e) := by
    intro j hj
    rw [hT2] at hj
    rcases mem_save_events hj with h | h
    · exact Or.inl (mem1 j h)
    · exact Or.inr h
  have mem3 : ∀ j ∈ T3, (∃ x ∈ conds1, j = DynamoStorage.conditionItem c1 x) ∨
      (∃ e ∈ evs1, j = DynamoStorage.eventItem c1 e) ∨
      (∃ w ∈ ws1, j = DynamoStorage.weatherItem c1 w) := by
    intro j hj
    rw [hT3] at hj
    rcases mem_save_weather hj with h | h
    · rcases mem2 j h with h' | h'
      · exact Or.inl h'
      · exact Or.inr (Or.inl h')
    · exact Or.inr (Or.inr h)
  have mem4 : ∀ j ∈ T4, (∃ x ∈ conds1, j = DynamoStorage.conditionItem c1 x) ∨
      (∃ e ∈ evs1, j = DynamoStorage.eventItem c1 e) ∨
      (∃ w ∈ ws1, j = DynamoStorage.weatherItem c1 w) ∨
      (∃ x ∈ conds2, j = DynamoStorage.conditionItem c2 x) := by
    intro j hj
    rw [hT4] at hj
    rcases mem_save_road_conditions hj with h | h
    · rcases mem3 j h with h' | h' | h'
      · exact Or.inl h'
      · exact Or.inr (Or.inl h')
      · exact Or.inr (Or.inr (Or.inl h'))
    · exact Or.inr (Or.inr (Or.inr h))
  have mem5 : ∀ j ∈ T5, (∃ x ∈ conds1, j = DynamoStorage.conditionItem c1 x) ∨
      (∃ e ∈ evs1, j = DynamoStorage.eventItem c1 e) ∨
      (∃ w ∈ ws1, j = DynamoStorage.weatherItem c1 w) ∨
      (∃ x ∈ conds2, j = DynamoStorage.conditionItem c2 x) ∨
      (∃ e ∈ evs2, j = DynamoStorage.eventItem c2 e) := by
    intro j hj
    rw [hT5] at hj
    rcases mem_save_events hj with h | h
    · rcases mem4 j h with h' | h' | h' | h'
      · exact Or.inl h'
      · exact Or.inr (Or.inl h')
      · exact Or.inr (Or.inr (Or.inl h'))
      · exact Or.inr (Or.inr (Or.inr (Or.inl h')))
    · exact Or.inr (Or.inr (Or.inr (Or.inr h)))
  have fc1 : ∀ x : RoadCondition,
      gsiPred ("CYCLE#" ++ c1) "WEATHER#" (DynamoStorage.conditionItem c1 x) = false :=
    fun x => gsiPred_false_of_sk rfl
      (not_beginsWith_of_data rfl rfl (by decide) x.roadway_name)
  have fe1 : ∀ e : Event,
      gsiPred ("CYCLE#" ++ c1) "WEATHER#" (DynamoStorage.eventItem c1 e) = false :=
    fun e => gsiPred_false_of_sk rfl
      (not_beginsWith_of_data rfl rfl (by decide) e.id)
  have fw1 : ∀ w : WeatherStation,
      gsiPred ("CYCLE#" ++ c1) "WEATHER#" (DynamoStorage.weatherItem c1 w) = true :=
    fun w => gsiPred_true "WEATHER#" rfl rfl (beginsWith_append _ _)
  have fc2 : ∀ x : RoadCondition,
      gsiPred ("CYCLE#" ++ c1) "WEATHER#" (DynamoStorage.conditionItem c2 x) = false :=
    fun x => gsiPred_false_of_pk (fun hcontra => cycle_pk_ne (Ne.symm hc) hcontra)
  have fe2 : ∀ e : Event,
      gsiPred ("CYCLE#" ++ c1) "WEATHER#" (DynamoStorage.eventItem c2 e) = false :=
    fun e => gsiPred_false_of_pk (fun hcontra => cycle_pk_ne (Ne.symm hc) hcontra)
  have fw2 : ∀ w : WeatherStation,
      gsiPred ("CYCLE#" ++ c1) "WEATHER#" (DynamoStorage.weatherItem c2 w) = false :=
    fun w => gsiPred_false_of_pk (fun hcontra => cycle_pk_ne (Ne.symm hc) hcontra)
  have hnd2 : keysNodup T2 := by
    rw [hT2, hT1]
    exact keysNodup_save_events (keysNodup_save_road_conditions keysNodup_nil)
  have hfilterT2 : T2.filter (gsiPred ("CYCLE#" ++ c1) "WEATHER#") = [] := by
    rw [List.filter_eq_nil_iff]
    intro j hj
    rcases mem2 j hj with ⟨x1, hx1, rfl⟩ | ⟨e1, he1, rfl⟩
    · simp [fc1 x1]
    · simp [fe1 e1]
  have hperm3 : List.Perm (T3.filter (gsiPred ("CYCLE#" ++ c1) "WEATHER#"))
      (ws1.map (DynamoStorage.weatherItem c1)) := by
    rw [hT3]
    have h := save_weather_filter_perm c1 (gsiPred ("CYCLE#" ++ c1) "WEATHER#") ws1 T2
      hnd2 (fun w _ => fw1 w) (wsKeysNodup c1 hws1)
      (fun w hw j hj hpj => by
        rcases mem2 j hj with ⟨x1, hx1, rfl⟩ | ⟨e1, he1, rfl⟩
        · rw [fc1 x1] at hpj
          exact absurd hpj (by simp)
        · rw [fe1 e1] at hpj
          exact absurd hpj (by simp))
    rw [hfilterT2] at h
    simpa using h
  have peel4 : T4.filter (gsiPred ("CYCLE#" ++ c1) "WEATHER#") =
      T3.filter (gsiPred ("CYCLE#" ++ c1) "WEATHER#") := by
    rw [hT4]
    refine save_road_conditions_filter_of_not_matching c2 _ conds2 T3 (fun x _ => fc2 x) ?_
    intro j hj hpj x hx
    rcases mem3 j hj with ⟨x1, hx1, rfl⟩ | ⟨e1, he1, rfl⟩ | ⟨w1, hw1, rfl⟩
    · rw [fc1 x1] at hpj
      exact absurd hpj (by simp)
    · rw [fe1 e1] at hpj
      exact absurd hpj (by simp)
    · exact fun hand =>
        append_ne_of_data rfl rfl (by decide) w1.station_name x.roadway_name hand.1
  have peel5 : T5.filter (gsiPred ("CYCLE#" ++ c1) "WEATHER#") =
      T4.filter (gsiPred ("CYCLE#" ++ c1) "WEATHER#") := by
    rw [hT5]
    refine save_events_filter_of_not_matching c2 _ evs2 T4 (fun e _ => fe2 e) ?_
    intro j hj hpj e he
    rcases mem4 j hj with ⟨x1, hx1, rfl⟩ | ⟨e1, he1, rfl⟩ | ⟨w1, hw1, rfl⟩ | ⟨x2, hx2, rfl⟩
    · rw [fc1 x1] at hpj
      exact absurd hpj (by simp)
    · rw [fe1 e1] at hpj
      exact absurd hpj (by simp)
    · exact fun hand =>
        append_ne_of_data rfl rfl (by decide) w1.station_name e.id hand.1
    · rw [fc2 x2] at hpj
      exact absurd hpj (by simp)
  have peel6 : T6.filter (gsiPred ("CYCLE#" ++ c1) "WEATHER#") =
      T5.filter (gsiPred ("CYCLE#" ++ c1) "WEATHER#") := by
    rw [hT6]
    refine save_weather_filter_of_not_matching c2 _ ws2 T5 (fun w _ => fw2 w) ?_
    intro j hj hpj w hw
    rcases mem5 j hj with ⟨x1, hx1, rfl⟩ | ⟨e1, he1, rfl⟩ | ⟨w1, hw1, rfl⟩ | ⟨x2, hx2, rfl⟩ | ⟨e2, he2, rfl⟩
    · rw [fc1 x1] at hpj
      exact absurd hpj (by simp)
    · rw [fe1 e1] at hpj
      exact absurd hpj (by simp)
    · exact fun hand => hc hand.2
    · rw [fc2 x2] at hpj
      exact absurd hpj (by simp)
    · rw [fe2 e2] at hpj
      exact absurd hpj (by simp)
  rw [peel6, peel5, peel4]
  refine ((List.perm_insertionSort _ _).map _).trans ?_
  refine (hperm3.map _).trans ?_
  rw [List.map_map]
  have hid : ws1.map (DynamoStorage.itemToWeather ∘ DynamoStorage.weatherItem c1) = ws1 := by
    trans (List.map id ws1)
    · exact List.map_congr_left (fun a _ => itemToWeather_weatherItem c1 a)
    · exact List.map_id _
  rw [hid]

/-- Conditions of the second cycle on Dynamo: with the batch's roadway
names pairwise distinct the read returns the batch as a multiset. -/
theorem dynamo_conditions_c2_perm (c1 c2 : String)
    (conds1 conds2 : List RoadCondition) (evs1 evs2 : List Event)
    (ws1 ws2 : List WeatherStation) (hc : c1 ≠ c2)
    (hcond2 : (conds2.map RoadCondition.roadway_name).Nodup) :
    List.Perm (DynamoStorage.get_road_conditions
      (DynamoStorage.save_weather (DynamoStorage.save_events
        (DynamoStorage.save_road_conditions (DynamoStorage.save_weather
          (DynamoStorage.save_events
            (DynamoStorage.save_road_conditions [] c1 conds1) c1 evs1) c1 ws1)
          c2 conds2) c2 evs2) c2 ws2) c2) conds2 := by
  simp only [DynamoStorage.get_road_conditions, queryGSI_eq_pred]
  set T1 := DynamoStorage.save_road_conditions [] c1 conds1 with hT1
  set T2 := DynamoStorage.save_events T1 c1 evs1 with hT2
  set T3 := DynamoStorage.save_weather T2 c1 ws1 with hT3
  set T4 := DynamoStorage.save_road_conditions T3 c2 conds2 with hT4
  set T5 := DynamoStorage.save_events T4 c2 evs2 with hT5
  set T6 := DynamoStorage.save_weather T5 c2 ws2 with hT6
  have mem1 : ∀ j ∈ T1, ∃ x ∈ conds1, j = DynamoStorage.conditionItem c1 x := by
    intro j hj
    rw [hT1] at hj
    rcases mem_save_road_conditions hj with h0 | h
    · exact absurd h0 (List.not_mem_nil j)
    · exact h
  have mem2 : ∀ j ∈ T2, (∃ x ∈ conds1, j = DynamoStorage.conditionItem c1 x) ∨
      (∃ e ∈ evs1, j = DynamoStorage.eventItem c1 e) := by
    intro j hj
    rw [hT2] at hj
    rcases mem_save_events hj with h | h
    · exact Or.inl (mem1 j h)
    · exact Or.inr h
  have mem3 : ∀ j ∈ T3, (∃ x ∈ conds1, j = DynamoStorage.conditionItem c1 x) ∨
      (∃ e ∈ evs1, j = DynamoStorage.eventItem c1 e) ∨
      (∃ w ∈ ws1, j = DynamoStorage.weatherItem c1 w) := by
    intro j hj
    rw [hT3] at hj
    rcases mem_save_weather hj with h | h
    · rcases mem2 j h with h' | h'
      · exact Or.inl h'
      · exact Or.inr (Or.inl h')
    · exact Or.inr (Or.inr h)
  have mem4 : ∀ j ∈ T4, (∃ x ∈ conds1, j = DynamoStorage.conditionItem c1 x) ∨
      (∃ e ∈ evs1, j = DynamoStorage.eventItem c1 e) ∨
      (∃ w ∈ ws1, j = DynamoStorage.weatherItem c1 w) ∨
      (∃ x ∈ conds2, j = DynamoStorage.conditionItem c2 x) := by
    intro j hj
    rw [hT4] at hj
    rcases mem_save_road_conditions hj with h | h
    · rcases mem3 j h with h' | h' | h'
      · exact Or.inl h'
      · exact Or.inr (Or.inl h')
      · exact Or.inr (Or.inr (Or.inl h'))
    · exact Or.inr (Or.inr (Or.inr h))
  have mem5 : ∀ j ∈ T5, (∃ x ∈ conds1, j = DynamoStorage.conditionItem c1 x) ∨
      (∃ e ∈ evs1, j = DynamoStorage.eventItem c1 e) ∨
      (∃ w ∈ ws1, j = DynamoStorage.weatherItem c1 w) ∨
      (∃ x ∈ conds2, j = DynamoStorage.conditionItem c2 x) ∨
      (∃ e ∈ evs2, j = DynamoStorage.eventItem c2 e) := by
    intro j hj
    rw [hT5] at hj
    rcases mem_save_events hj with h | h
    · rcases mem4 j h with h' | h' | h' | h'
      · exact Or.inl h'
      · exact Or.inr (Or.inl h')
      · exact Or.inr (Or.inr (Or.inl h'))
      · exact Or.inr (Or.inr (Or.inr (Or.inl h')))
    · exact Or.inr (Or.inr (Or.inr (Or.inr h)))
  have fc1 : ∀ x : RoadCondition,
      gsiPred ("CYCLE#" ++ c2) "CONDITION#" (DynamoStorage.conditionItem c1 x) = false :=
    fun x => gsiPred_false_of_pk (fun hcontra => cycle_pk_ne hc hcontra)
  have fe1 : ∀ e : Event,
      gsiPred ("CYCLE#" ++ c2) "CONDITION#" (DynamoStorage.eventItem c1 e) = false :=
    fun e => gsiPred_false_of_pk (fun hcontra => cycle_pk_ne hc hcontra)
  have fw1 : ∀ w : WeatherStation,
      gsiPred ("CYCLE#" ++ c2) "CONDITION#" (DynamoStorage.weatherItem c1 w) = false :=
    fun w => gsiPred_false_of_pk (fun hcontra => cycle_pk_ne hc hcontra)
  have fc2 : ∀ x : RoadCondition,
      gsiPred ("CYCLE#" ++ c2) "CONDITION#" (DynamoStorage.conditionItem c2 x) = true :=
    fun x => gsiPred_true "CONDITION#" rfl rfl (beginsWith_append _ _)
  have fe2 : ∀ e : Event,
      gsiPred ("CYCLE#" ++ c2) "CONDITION#" (DynamoStorage.eventItem c2 e) = false :=
    fun e => gsiPred_false_of_sk rfl
      (not_beginsWith_of_data rfl rfl (by decide) e.id)
  have fw2 : ∀ w : WeatherStation,
      gsiPred ("CYCLE#" ++ c2) "CONDITION#" (DynamoStorage.weatherItem c2 w) = false :=
    fun w => gsiPred_false_of_sk rfl
      (not_beginsWith_of_data rfl rfl (by decide) w.station_name)
  have hnd3 : keysNodup T3 := by
    rw [hT3, hT2, hT1]
    exact keysNodup_save_weather
      (keysNodup_save_events (keysNodup_save_road_conditions keysNodup_nil))
  have hfilterT3 : T3.filter (gsiPred ("CYCLE#" ++ c2) "CONDITION#") = [] := by
    rw [List.filter_eq_nil_iff]
    intro j hj
    rcases mem3 j hj with ⟨x1, hx1, rfl⟩ | ⟨e1, he1, rfl⟩ | ⟨w1, hw1, rfl⟩
    · simp [fc1 x1]
    · simp [fe1 e1]
    · simp [fw1 w1]
  have hperm4 : List.Perm (T4.filter (gsiPred ("CYCLE#" ++ c2) "CONDITION#"))
      (conds2.map (DynamoStorage.conditionItem c2)) := by
    rw [hT4]
    have h := save_road_conditions_filter_perm c2 (gsiPred ("CYCLE#" ++ c2) "CONDITION#") conds2 T3
      hnd3 (fun x _ => fc2 x) (condKeysNodup c2 hcond2)
      (fun x hx j hj hpj => by
        rcases mem3 j hj with ⟨x1, hx1, rfl⟩ | ⟨e1, he1, rfl⟩ | ⟨w1, hw1, rfl⟩
        · rw [fc1 x1] at hpj
          exact absurd hpj (by simp)
        · rw [fe1 e1] at hpj
          exact absurd hpj (by simp)
        · rw [fw1 w1] at hpj
          exact absurd hpj (by simp))
    rw [hfilterT3] at h
    simpa using h
  have peel5 : T5.filter (gsiPred ("CYCLE#" ++ c2) "CONDITION#") =
      T4.filter (gsiPred ("CYCLE#" ++ c2) "CONDITION#") := by
    rw [hT5]
    refine save_events_filter_of_not_matching c2 _ evs2 T4 (fun e _ => fe2 e) ?_
    intro j hj hpj e he
    rcases mem4 j hj with ⟨x1, hx1, rfl⟩ | ⟨e1, he1, rfl⟩ | ⟨w1, hw1, rfl⟩ | ⟨x2, hx2, rfl⟩
    · rw [fc1 x1] at hpj
      exact absurd hpj (by simp)
    · rw [fe1 e1] at hpj
      exact absurd hpj (by simp)
    · rw [fw1 w1] at hpj
      exact absurd hpj (by simp)
    · exact fun hand =>
        append_ne_of_data rfl rfl (by decide) x2.roadway_name e.id hand.1
  have peel6 : T6.filter (gsiPred ("CYCLE#" ++ c2) "CONDITION#") =
      T5.filter (gsiPred ("CYCLE#" ++ c2) "CONDITION#") := by
    rw [hT6]
    refine save_weather_filter_of_not_matching c2 _ ws2 T5 (fun w _ => fw2 w) ?_
    intro j hj hpj w hw
    rcases mem5 j hj with ⟨x1, hx1, rfl⟩ | ⟨e1, he1, rfl⟩ | ⟨w1, hw1, rfl⟩ | ⟨x2, hx2, rfl⟩ | ⟨e2, he2, rfl⟩
    · rw [fc1 x1] at hpj
      exact absurd hpj (by simp)
    · rw [fe1 e1] at hpj
      exact absurd hpj (by simp)
    · rw [fw1 w1] at hpj
      exact absurd hpj (by simp)
    · exact fun hand =>
        append_ne_of_data rfl rfl (by decide) x2.roadway_name w.station_name hand.1
    · rw [fe2 e2] at hpj
      exact absurd hpj (by simp)
  rw [peel6, peel5]
  refine ((List.perm_insertionSort _ _).map _).trans ?_
  refine (hperm4.map _).trans ?_
  rw [List.map_map]
  have hid : conds2.map (DynamoStorage.itemToCondition ∘ DynamoStorage.conditionItem c2) =
      conds2 := by
    trans (List.map id conds2)
    · exact List.map_congr_left (fun a _ => itemToCondition_conditionItem c2 a)
    · exact List.map_id _
  rw [hid]

/-- Events of the second cycle on Dynamo: with the batch's event ids
pairwise distinct the read returns the batch as a multiset — no cross-cycle
hypothesis is needed, because the second cycle's puts come last and win
every overwrite. -/
theorem dynamo_events_c2_perm (c1 c2 : String)
    (conds1 conds2 : List RoadCondition) (evs1 evs2 : List Event)
    (ws1 ws2 : List WeatherStation) (hc : c1 ≠ c2)
    (hev2 : (evs2.map Event.id).Nodup) :
    List.Perm (DynamoStorage.get_events
      (DynamoStorage.save_weather (DynamoStorage.save_events
        (DynamoStorage.save_road_conditions (DynamoStorage.save_weather
          (DynamoStorage.save_events
            (DynamoStorage.save_road_conditions [] c1 conds1) c1 evs1) c1 ws1)
          c2 conds2) c2 evs2) c2 ws2) c2) evs2 := by
  simp only [DynamoStorage.get_events, queryGSI_eq_pred]
  set T1 := DynamoStorage.save_road_conditions [] c1 conds1 with hT1
  set T2 := DynamoStorage.save_events T1 c1 evs1 with hT2
  set T3 := DynamoStorage.save_weather T2 c1 ws1 with hT3
  set T4 := DynamoStorage.save_road_conditions T3 c2 conds2 with hT4
  set T5 := DynamoStorage.save_events T4 c2 evs2 with hT5
  set T6 := DynamoStorage.save_weather T5 c2 ws2 with hT6
  have mem1 : ∀ j ∈ T1, ∃ x ∈ conds1, j = DynamoStorage.conditionItem c1 x := by
    intro j hj
    rw [hT1] at hj
    rcases mem_save_road_conditions hj with h0 | h
    · exact absurd h0 (List.not_mem_nil j)
    · exact h
  have mem2 : ∀ j ∈ T2, (∃ x ∈ conds1, j = DynamoStorage.conditionItem c1 x) ∨
      (∃ e ∈ evs1, j = DynamoStorage.eventItem c1 e) := by
    intro j hj
    rw [hT2] at hj
    rcases mem_save_events hj with h | h
    · exact Or.inl (mem1 j h)
    · exact Or.inr h
  have mem3 : ∀ j ∈ T3, (∃ x ∈ conds1, j = DynamoStorage.conditionItem c1 x) ∨
      (∃ e ∈ evs1, j = DynamoStorage.eventItem c1 e) ∨
      (∃ w ∈ ws1, j = DynamoStorage.weatherItem c1 w) := by
    intro j hj
    rw [hT3] at hj
    rcases mem_save_weather hj with h | h
    · rcases mem2 j h with h' | h'
      · exact Or.inl h'
      · exact Or.inr (Or.inl h')
    · exact Or.inr (Or.inr h)
  have mem4 : ∀ j ∈ T4, (∃ x ∈ conds1, j = DynamoStorage.conditionItem c1 x) ∨
      (∃ e ∈ evs1, j = DynamoStorage.eventItem c1 e) ∨
      (∃ w ∈ ws1, j = DynamoStorage.weatherItem c1 w) ∨
      (∃ x ∈ conds2, j = DynamoStorage.conditionItem c2 x) := by
    intro j hj
    rw [hT4] at hj
    rcases mem_save_road_conditions hj with h | h
    · rcases mem3 j h with h' | h' | h'
      · exact Or.inl h'
      · exact Or.inr (Or.inl h')
      · exact Or.inr (Or.inr (Or.inl h'))
    · exact Or.inr (Or.inr (Or.inr h))
  have mem5 : ∀ j ∈ T5, (∃ x ∈ conds1, j = DynamoStorage.conditionItem c1 x) ∨
      (∃ e ∈ evs1, j = DynamoStorage.eventItem c1 e) ∨
      (∃ w ∈ ws1, j = DynamoStorage.weatherItem c1 w) ∨
      (∃ x ∈ conds2, j = DynamoStorage.conditionItem c2 x) ∨
      (∃ e ∈ evs2, j = DynamoStorage.eventItem c2 e) := by
    intro j hj
    rw [hT5] at hj
    rcases mem_save_events hj with h | h
    · rcases mem4 j h with h' | h' | h' | h'
      · exact Or.inl h'
      · exact Or.inr (Or.inl h')
      · exact Or.inr (Or.inr (Or.inl h'))
      · exact Or.inr (Or.inr (Or.inr (Or.inl h')))
    · exact Or.inr (Or.inr (Or.inr (Or.inr h)))
  have fc1 : ∀ x : RoadCondition,
      gsiPred ("CYCLE#" ++ c2) "EVENT#" (DynamoStorage.conditionItem c1 x) = false :=
    fun x => gsiPred_false_of_pk (fun hcontra => cycle_pk_ne hc hcontra)
  have fe1 : ∀ e : Event,
      gsiPred ("CYCLE#" ++ c2) "EVENT#" (DynamoStorage.eventItem c1 e) = false :=
    fun e => gsiPred_false_of_pk (fun hcontra => cycle_pk_ne hc hcontra)
  have fw1 : ∀ w : WeatherStation,
      gsiPred ("CYCLE#" ++ c2) "EVENT#" (DynamoStorage.weatherItem c1 w) = false :=
    fun w => gsiPred_false_of_pk (fun hcontra => cycle_pk_ne hc hcontra)
  have fc2 : ∀ x : RoadCondition,
      gsiPred ("CYCLE#" ++ c2) "EVENT#" (DynamoStorage.conditionItem c2 x) = false :=
    fun x => gsiPred_false_of_sk rfl
      (not_beginsWith_of_data rfl rfl (by decide) x.roadway_name)
  have fe2 : ∀ e : Event,
      gsiPred ("CYCLE#" ++ c2) "EVENT#" (DynamoStorage.eventItem c2 e) = true :=
    fun e => gsiPred_true "EVENT#" rfl rfl (beginsWith_append _ _)
  have fw2 : ∀ w : WeatherStation,
      gsiPred ("CYCLE#" ++ c2) "EVENT#" (DynamoStorage.weatherItem c2 w) = false :=
    fun w => gsiPred_false_of_sk rfl
      (not_beginsWith_of_data rfl rfl (by decide) w.station_name)
  have hnd4 : keysNodup T4 := by
    rw [hT4, hT3, hT2, hT1]
    exact keysNodup_save_road_conditions (keysNodup_save_weather
      (keysNodup_save_events (keysNodup_save_road_conditions keysNodup_nil)))
  have hfilterT4 : T4.filter (gsiPred ("CYCLE#" ++ c2) "EVENT#") = [] := by
    rw [List.filter_eq_nil_iff]
    intro j hj
    rcases mem4 j hj with ⟨x1, hx1, rfl⟩ | ⟨e1, he1, rfl⟩ | ⟨w1, hw1, rfl⟩ | ⟨x2, hx2, rfl⟩
    · simp [fc1 x1]
    · simp [fe1 e1]
    · simp [fw1 w1]
    · simp [fc2 x2]
  have hperm5 : List.Perm (T5.filter (gsiPred ("CYCLE#" ++ c2) "EVENT#"))
      (evs2.map (DynamoStorage.eventItem c2)) := by
    rw [hT5]
    have h := save_events_filter_perm c2 (gsiPred ("CYCLE#" ++ c2) "EVENT#") evs2 T4
      hnd4 (fun e _ => fe2 e) (evKeysNodup c2 hev2)
      (fun e he j hj hpj => by
        rcases mem4 j hj with ⟨x1, hx1, rfl⟩ | ⟨e1, he1, rfl⟩ | ⟨w1, hw1, rfl⟩ | ⟨x2, hx2, rfl⟩
        · rw [fc1 x1] at hpj
          exact absurd hpj (by simp)
        · rw [fe1 e1] at hpj
          exact absurd hpj (by simp)
        · rw [fw1 w1] at hpj
          exact absurd hpj (by simp)
        · rw [fc2 x2] at hpj
          exact absurd hpj (by simp))
    rw [hfilterT4] at h
    simpa using h
  have peel6 : T6.filter (gsiPred ("CYCLE#" ++ c2) "EVENT#") =
      T5.filter (gsiPred ("CYCLE#" ++ c2) "EVENT#") := by
    rw [hT6]
    refine save_weather_filter_of_not_matching c2 _ ws2 T5 (fun w _ => fw2 w) ?_
    intro j hj hpj w hw
    rcases mem5 j hj with ⟨x1, hx1, rfl⟩ | ⟨e1, he1, rfl⟩ | ⟨w1, hw1, rfl⟩ | ⟨x2, hx2, rfl⟩ | ⟨e2, he2, rfl⟩
    · rw [fc1 x1] at hpj
      exact absurd hpj (by simp)
    · rw [fe1 e1] at hpj
      exact absurd hpj (by simp)
    · rw [fw1 w1] at hpj
      exact absurd hpj (by simp)
    · rw [fc2 x2] at hpj
      exact absurd hpj (by simp)
    · exact fun hand =>
        append_ne_of_data rfl rfl (by decide) e2.id w.station_name hand.1
  rw [peel6]
  refine ((List.perm_insertionSort _ _).map _).trans ?_
  refine (hperm5.map _).trans ?_
  rw [List.map_map]
  have hid : evs2.map (DynamoStorage.itemToEvent ∘ DynamoStorage.eventItem c2) = evs2 := by
    trans (List.map id evs2)
    · exact List.map_congr_left (fun a _ => itemToEvent_eventItem c2 a)
    · exact List.map_id _
  rw [hid]

/-- Weather of the second cycle on Dynamo: with the batch's station names
pairwise distinct the read returns the batch as a multiset. -/
theorem dynamo_weather_c2_perm (c1 c2 : String)
    (conds1 conds2 : List RoadCondition) (evs1 evs2 : List Event)
    (ws1 ws2 : List WeatherStation) (hc : c1 ≠ c2)
    (hws2 : (ws2.map WeatherStation.station_name).Nodup) :
    List.Perm (DynamoStorage.get_weather
      (DynamoStorage.save_weather (DynamoStorage.save_events
        (DynamoStorage.save_road_conditions (DynamoStorage.save_weather
          (DynamoStorage.save_events
            (DynamoStorage.save_road_conditions [] c1 conds1) c1 evs1) c1 ws1)
          c2 conds2) c2 evs2) c2 ws2) c2) ws2 := by
  simp only [DynamoStorage.get_weather, queryGSI_eq_pred]
  set T1 := DynamoStorage.save_road_conditions [] c1 conds1 with hT1
  set T2 := DynamoStorage.save_events T1 c1 evs1 with hT2
  set T3 := DynamoStorage.save_weather T2 c1 ws1 with hT3
  set T4 := DynamoStorage.save_road_conditions T3 c2 conds2 with hT4
  set T5 := DynamoStorage.save_events T4 c2 evs2 with hT5
  set T6 := DynamoStorage.save_weather T5 c2 ws2 with hT6
  have mem1 : ∀ j ∈ T1, ∃ x ∈ conds1, j = DynamoStorage.conditionItem c1 x := by
    intro j hj
    rw [hT1] at hj
    rcases mem_save_road_conditions hj with h0 | h
    · exact absurd h0 (List.not_mem_nil j)
    · exact h
  have mem2 : ∀ j ∈ T2, (∃ x ∈ conds1, j = DynamoStorage.conditionItem c1 x) ∨
      (∃ e ∈ evs1, j = DynamoStorage.eventItem c1 e) := by
    intro j hj
    rw [hT2] at hj
    rcases mem_save_events hj with h | h
    · exact Or.inl (mem1 j h)
    · exact Or.inr h
  have mem3 : ∀ j ∈ T3, (∃ x ∈ conds1, j = DynamoStorage.conditionItem c1 x) ∨
      (∃ e ∈ evs1, j = DynamoStorage.eventItem c1 e) ∨
      (∃ w ∈ ws1, j = DynamoStorage.weatherItem c1 w) := by
    intro j hj
    rw [hT3] at hj
    rcases mem_save_weather hj with h | h
    · rcases mem2 j h with h' | h'
      · exact Or.inl h'
      · exact Or.inr (Or.inl h')
    · exact Or.inr (Or.inr h)
  have mem4 : ∀ j ∈ T4, (∃ x ∈ conds1, j = DynamoStorage.conditionItem c1 x) ∨
      (∃ e ∈ evs1, j = DynamoStorage.eventItem c1 e) ∨
      (∃ w ∈ ws1, j = DynamoStorage.weatherItem c1 w) ∨
      (∃ x ∈ conds2, j = DynamoStorage.conditionItem c2 x) := by
    intro j hj
    rw [hT4] at hj
    rcases mem_save_road_conditions hj with h | h
    · rcases mem3 j h with h' | h' | h'
      · exact Or.inl h'
      · exact Or.inr (Or.inl h')
      · exact Or.inr (Or.inr (Or.inl h'))
    · exact Or.inr (Or.inr (Or.inr h))
  have mem5 : ∀ j ∈ T5, (∃ x ∈ conds1, j = DynamoStorage.conditionItem c1 x) ∨
      (∃ e ∈ evs1, j = DynamoStorage.eventItem c1 e) ∨
      (∃ w ∈ ws1, j = DynamoStorage.weatherItem c1 w) ∨
      (∃ x ∈ conds2, j = DynamoStorage.conditionItem c2 x) ∨
      (∃ e ∈ evs2, j = DynamoStorage.eventItem c2 e) := by
    intro j hj
    rw [hT5] at hj
    rcases mem_save_events hj with h | h
    · rcases mem4 j h with h' | h' | h' | h'
      · exact Or.inl h'
      · exact Or.inr (Or.inl h')
      · exact Or.inr (Or.inr (Or.inl h'))
      · exact Or.inr (Or.inr (Or.inr (Or.inl h')))
    · exact Or.inr (Or.inr (Or.inr (Or.inr h)))
  have fc1 : ∀ x : RoadCondition,
      gsiPred ("CYCLE#" ++ c2) "WEATHER#" (DynamoStorage.conditionItem c1 x) = false :=
    fun x => gsiPred_false_of_pk (fun hcontra => cycle_pk_ne hc hcontra)
  have fe1 : ∀ e : Event,
      gsiPred ("CYCLE#" ++ c2) "WEATHER#" (DynamoStorage.eventItem c1 e) = false :=
    fun e => gsiPred_false_of_pk (fun hcontra => cycle_pk_ne hc hcontra)
  have fw1 : ∀ w : WeatherStation,
      gsiPred ("CYCLE#" ++ c2) "WEATHER#" (DynamoStorage.weatherItem c1 w) = false :=
    fun w => gsiPred_false_of_pk (fun hcontra => cycle_pk_ne hc hcontra)
  have fc2 : ∀ x : RoadCondition,
      gsiPred ("CYCLE#" ++ c2) "WEATHER#" (DynamoStorage.conditionItem c2 x) = false :=
    fun x => gsiPred_false_of_sk rfl
      (not_beginsWith_of_data rfl rfl (by decide) x.roadway_name)
  have fe2 : ∀ e : Event,
      gsiPred ("CYCLE#" ++ c2) "WEATHER#" (DynamoStorage.eventItem c2 e) = false :=
    fun e => gsiPred_false_of_sk rfl
      (not_beginsWith_of_data rfl rfl (by decide) e.id)
  have fw2 : ∀ w : WeatherStation,
      gsiPred ("CYCLE#" ++ c2) "WEATHER#" (DynamoStorage.weatherItem c2 w) = true :=
    fun w => gsiPred_true "WEATHER#" rfl rfl (beginsWith_append _ _)
  have hnd5 : keysNodup T5 := by
    rw [hT5, hT4, hT3, hT2, hT1]
    exact keysNodup_save_events (keysNodup_save_road_conditions (keysNodup_save_weather
      (keysNodup_save_events (keysNodup_save_road_conditions keysNodup_nil))))
  have hfilterT5 : T5.filter (gsiPred ("CYCLE#" ++ c2) "WEATHER#") = [] := by
    rw [List.filter_eq_nil_iff]
    intro j hj
    rcases mem5 j hj with ⟨x1, hx1, rfl⟩ | ⟨e1, he1, rfl⟩ | ⟨w1, hw1, rfl⟩ |
      ⟨x2, hx2, rfl⟩ | ⟨e2, he2, rfl⟩
    · simp [fc1 x1]
    · simp [fe1 e1]
    · simp [fw1 w1]
    · simp [fc2 x2]
    · simp [fe2 e2]
  have hperm6 : List.Perm (T6.filter (gsiPred ("CYCLE#" ++ c2) "WEATHER#"))
      (ws2.map (DynamoStorage.weatherItem c2)) := by
    rw [hT6]
    have h := save_weather_filter_perm c2 (gsiPred ("CYCLE#" ++ c2) "WEATHER#") ws2 T5
      hnd5 (fun w _ => fw2 w) (wsKeysNodup c2 hws2)
      (fun w hw j hj hpj => by
        rcases mem5 j hj with ⟨x1, hx1, rfl⟩ | ⟨e1, he1, rfl⟩ | ⟨w1, hw1, rfl⟩ |
          ⟨x2, hx2, rfl⟩ | ⟨e2, he2, rfl⟩
        · rw [fc1 x1] at hpj
          exact absurd hpj (by simp)
        · rw [fe1 e1] at hpj
          exact absurd hpj (by simp)
        · rw [fw1 w1] at hpj
          exact absurd hpj (by simp)
        · rw [fc2 x2] at hpj
          exact absurd hpj (by simp)
        · rw [fe2 e2] at hpj
          exact absurd hpj (by simp))
    rw [hfilterT5] at h
    simpa using h
  refine ((List.perm_insertionSort _ _).map _).trans ?_
  refine (hperm6.map _).trans ?_
  rw [List.map_map]
  have hid : ws2.map (DynamoStorage.itemToWeather ∘ DynamoStorage.weatherItem c2) = ws2 := by
    trans (List.map id ws2)
    · exact List.map_congr_left (fun a _ => itemToWeather_weatherItem c2 a)
    · exact List.map_id _
  rw [hid]

/-- C2 amended: starting from a fresh store and saving the three
cycle-scoped batches for two distinct cycles, the SQLite cycle-scoped reads
return exactly the batch saved for each cycle, unconditionally — including
batches that share natural ids (roadway names, event ids, station names)
within a batch or across the two cycles.  The Dynamo reads return each
batch as a multiset under the hypotheses their own conjuncts state and no
more: conditions and weather need their own batch's names pairwise
distinct, the second cycle's events need their ids pairwise distinct, and
the first cycle's events additionally need no event id shared with the
second cycle's batch — the cross-cycle requirement forced by the
cycle-independent event key the C2 counterexample exhibits. -/
theorem cycle_scoped_batches_amended (c1 c2 : String)
    (conds1 conds2 : List RoadCondition) (evs1 evs2 : List Event)
    (ws1 ws2 : List WeatherStation) (hc : c1 ≠ c2)
    (db : SQLiteDB) (tbl : DynamoTable)
    (hdb : db = SQLiteStorage.save_weather (SQLiteStorage.save_events
      (SQLiteStorage.save_road_conditions (SQLiteStorage.save_weather
        (SQLiteStorage.save_events (SQLiteStorage.save_road_conditions sqliteEmpty c1 conds1)
          c1 evs1) c1 ws1) c2 conds2) c2 evs2) c2 ws2)
    (htbl : tbl = DynamoStorage.save_weather (DynamoStorage.save_events
      (DynamoStorage.save_road_conditions (DynamoStorage.save_weather
        (DynamoStorage.save_events (DynamoStorage.save_road_conditions [] c1 conds1)
          c1 evs1) c1 ws1) c2 conds2) c2 evs2) c2 ws2) :
    (SQLiteStorage.get_road_conditions db c1 = conds1 ∧
     SQLiteStorage.get_events db c1 = evs1 ∧
     SQLiteStorage.get_weather db c1 = ws1 ∧
     SQLiteStorage.get_road_conditions db c2 = conds2 ∧
     SQLiteStorage.get_events db c2 = evs2 ∧
     SQLiteStorage.get_weather db c2 = ws2) ∧
    (((conds1.map RoadCondition.roadway_name).Nodup →
        List.Perm (DynamoStorage.get_road_conditions tbl c1) conds1) ∧
     ((evs1.map Event.id).Nodup →
        (∀ e1 ∈ evs1, ∀ e2 ∈ evs2, e1.id ≠ e2.id) →
        List.Perm (DynamoStorage.get_events tbl c1) evs1) ∧
     ((ws1.map WeatherStation.station_name).Nodup →
        List.Perm (DynamoStorage.get_weather tbl c1) ws1) ∧
     ((conds2.map RoadCondition.roadway_name).Nodup →
        List.Perm (DynamoStorage.get_road_conditions tbl c2) conds2) ∧
     ((evs2.map Event.id).Nodup →
        List.Perm (DynamoStorage.get_events tbl c2) evs2) ∧
     ((ws2.map WeatherStation.station_name).Nodup →
        List.Perm (DynamoStorage.get_weather tbl c2) ws2)) := by
  subst hdb htbl
  constructor
  · simp only [SQLiteStorage.save_road_conditions, SQLiteStorage.save_events,
      SQLiteStorage.save_weather, sqliteEmpty]
    refine ⟨?_, ?_, ?_, ?_, ?_, ?_⟩ <;>
      simp only [SQLiteStorage.get_road_conditions, SQLiteStorage.get_events,
        SQLiteStorage.get_weather, List.nil_append, List.filter_append]
    · rw [filter_map_all_true _ _ _ (fun a _ => by simp),
        filter_map_all_false _ _ _ (fun a _ => by simp [hc.symm]),
        List.append_nil, List.map_map]
      trans (List.map id conds1)
      · exact List.map_congr_left (fun x _ => by
          obtain ⟨i, rn, rc, wc, res, ep, lu⟩ := x
          rfl)
      · exact List.map_id _
    · rw [filter_map_all_true _ _ _ (fun a _ => by simp),
        filter_map_all_false _ _ _ (fun a _ => by simp [hc.symm]),
        List.append_nil, List.map_map]
      trans (List.map id evs1)
      · exact List.map_congr_left (fun e _ => by
          obtain ⟨id, et, est, rn, dir, desc, sev, lat, lon, ifc⟩ := e
          cases ifc <;> simp)
      · exact List.map_id _
    · rw [filter_map_all_true _ _ _ (fun a _ => by simp),
        filter_map_all_false _ _ _ (fun a _ => by simp [hc.symm]),
        List.append_nil, List.map_map]
      trans (List.map id ws1)
      · exact List.map_congr_left (fun w _ => by
          obtain ⟨i, sn, at', st, ss, wsa, wsg, wd, pr, rh⟩ := w
          rfl)
      · exact List.map_id _
    · rw [filter_map_all_false _ _ _ (fun a _ => by simp [hc]),
        filter_map_all_true _ _ _ (fun a _ => by simp),
        List.nil_append, List.map_map]
      trans (List.map id conds2)
      · exact List.map_congr_left (fun x _ => by
          obtain ⟨i, rn, rc, wc, res, ep, lu⟩ := x
          rfl)
      · exact List.map_id _
    · rw [filter_map_all_false _ _ _ (fun a _ => by simp [hc]),
        filter_map_all_true _ _ _ (fun a _ => by simp),
        List.nil_append, List.map_map]
      trans (List.map id evs2)
      · exact List.map_congr_left (fun e _ => by
          obtain ⟨id, et, est, rn, dir, desc, sev, lat, lon, ifc⟩ := e
          cases ifc <;> simp)
      · exact List.map_id _
    · rw [filter_map_all_false _ _ _ (fun a _ => by simp [hc]),
        filter_map_all_true _ _ _ (fun a _ => by simp),
        List.nil_append, List.map_map]
      trans (List.map id ws2)
      · exact List.map_congr_left (fun w _ => by
          obtain ⟨i, sn, at', st, ss, wsa, wsg, wd, pr, rh⟩ := w
          rfl)
      · exact List.map_id _
  · exact ⟨fun h => dynamo_conditions_c1_perm c1 c2 conds1 conds2 evs1 evs2 ws1 ws2 hc h,
      fun h h12 => dynamo_events_c1_perm c1 c2 conds1 conds2 evs1 evs2 ws1 ws2 hc h h12,
      fun h => dynamo_weather_c1_perm c1 c2 conds1 conds2 evs1 evs2 ws1 ws2 hc h,
      fun h => dynamo_conditions_c2_perm c1 c2 conds1 conds2 evs1 evs2 ws1 ws2 hc h,
      fun h => dynamo_events_c2_perm c1 c2 conds1 conds2 evs1 evs2 ws1 ws2 hc h,
      fun h => dynamo_weather_c2_perm c1 c2 conds1 conds2 evs1 evs2 ws1 ws2 hc h⟩


/-- Witness for C2 amended at concrete batches, discharging every
hypothesis at decidable instances.  The two cycles share the roadway name
"SR-35" and the station name "Wolf Creek", so the unconditional SQLite
equalities are exercised exactly in the shared-natural-id case; a second
application with the same event id "1001" in both cycles additionally
exercises the SQLite event isolation, and the second cycle's Dynamo event
read, under a cross-cycle id collision. -/
theorem cycle_scoped_batches_amended_witness :
    ("c1" : String) ≠ "c2" ∧
    (SQLiteStorage.get_road_conditions (SQLiteStorage.save_weather (SQLiteStorage.save_events
      (SQLiteStorage.save_road_conditions (SQLiteStorage.save_weather
        (SQLiteStorage.save_events (SQLiteStorage.save_road_conditions sqliteEmpty "c1"
          [{ roadway_name := "SR-35" }]) "c1" [{ id := "1001" }]) "c1"
        [{ station_name := "Wolf Creek" }]) "c2"
      [{ roadway_name := "SR-35", road_condition := "Snow" }]) "c2" [{ id := "1002" }]) "c2"
      [{ station_name := "Wolf Creek", surface_status := "Ice" }]) "c1" =
      [{ roadway_name := "SR-35" }] ∧
     SQLiteStorage.get_events (SQLiteStorage.save_weather (SQLiteStorage.save_events
      (SQLiteStorage.save_road_conditions (SQLiteStorage.save_weather
        (SQLiteStorage.save_events (SQLiteStorage.save_road_conditions sqliteEmpty "c1"
          [{ roadway_name := "SR-35" }]) "c1" [{ id := "1001" }]) "c1"
        [{ station_name := "Wolf Creek" }]) "c2"
      [{ roadway_name := "SR-35", road_condition := "Snow" }]) "c2" [{ id := "1002" }]) "c2"
      [{ station_name := "Wolf Creek", surface_status := "Ice" }]) "c1" =
      [{ id := "1001" }] ∧
     SQLiteStorage.get_weather (SQLiteStorage.save_weather (SQLiteStorage.save_events
      (SQLiteStorage.save_road_conditions (SQLiteStorage.save_weather
        (SQLiteStorage.save_events (SQLiteStorage.save_road_conditions sqliteEmpty "c1"
          [{ roadway_name := "SR-35" }]) "c1" [{ id := "1001" }]) "c1"
        [{ station_name := "Wolf Creek" }]) "c2"
      [{ roadway_name := "SR-35", road_condition := "Snow" }]) "c2" [{ id := "1002" }]) "c2"
      [{ station_name := "Wolf Creek", surface_status := "Ice" }]) "c2" =
      [{ station_name := "Wolf Creek", surface_status := "Ice" }] ∧
     List.Perm (DynamoStorage.get_road_conditions (DynamoStorage.save_weather
      (DynamoStorage.save_events (DynamoStorage.save_road_conditions
        (DynamoStorage.save_weather (DynamoStorage.save_events
          (DynamoStorage.save_road_conditions [] "c1" [{ roadway_name := "SR-35" }])
          "c1" [{ id := "1001" }]) "c1" [{ station_name := "Wolf Creek" }]) "c2"
        [{ roadway_name := "SR-35", road_condition := "Snow" }]) "c2" [{ id := "1002" }])
      "c2" [{ station_name := "Wolf Creek", surface_status := "Ice" }]) "c1")
      [{ roadway_name := "SR-35" }] ∧
     List.Perm (DynamoStorage.get_road_conditions (DynamoStorage.save_weather
      (DynamoStorage.save_events (DynamoStorage.save_road_conditions
        (DynamoStorage.save_weather (DynamoStorage.save_events
          (DynamoStorage.save_road_conditions [] "c1" [{ roadway_name := "SR-35" }])
          "c1" [{ id := "1001" }]) "c1" [{ station_name := "Wolf Creek" }]) "c2"
        [{ roadway_name := "SR-35", road_condition := "Snow" }]) "c2" [{ id := "1002" }])
      "c2" [{ station_name := "Wolf Creek", surface_status := "Ice" }]) "c2")
      [{ roadway_name := "SR-35", road_condition := "Snow" }] ∧
     List.Perm (DynamoStorage.get_events (DynamoStorage.save_weather
      (DynamoStorage.save_events (DynamoStorage.save_road_conditions
        (DynamoStorage.save_weather (DynamoStorage.save_events
          (DynamoStorage.save_road_conditions [] "c1" [{ roadway_name := "SR-35" }])
          "c1" [{ id := "1001" }]) "c1" [{ station_name := "Wolf Creek" }]) "c2"
        [{ roadway_name := "SR-35", road_condition := "Snow" }]) "c2" [{ id := "1002" }])
      "c2" [{ station_name := "Wolf Creek", surface_status := "Ice" }]) "c1")
      [{ id := "1001" }] ∧
     List.Perm (DynamoStorage.get_weather (DynamoStorage.save_weather
      (DynamoStorage.save_events (DynamoStorage.save_road_conditions
        (DynamoStorage.save_weather (DynamoStorage.save_events
          (DynamoStorage.save_road_conditions [] "c1" [{ roadway_name := "SR-35" }])
          "c1" [{ id := "1001" }]) "c1" [{ station_name := "Wolf Creek" }]) "c2"
        [{ roadway_name := "SR-35", road_condition := "Snow" }]) "c2" [{ id := "1002" }])
      "c2" [{ station_name := "Wolf Creek", surface_status := "Ice" }]) "c2")
      [{ station_name := "Wolf Creek", surface_status := "Ice" }]) ∧
    (SQLiteStorage.get_events (SQLiteStorage.save_weather (SQLiteStorage.save_events
      (SQLiteStorage.save_road_conditions (SQLiteStorage.save_weather
        (SQLiteStorage.save_events (SQLiteStorage.save_road_conditions sqliteEmpty "c1" [])
          "c1" [{ id := "1001" }]) "c1" []) "c2" []) "c2"
      [{ id := "1001", event_type := "update" }]) "c2" []) "c1" = [{ id := "1001" }] ∧
     SQLiteStorage.get_events (SQLiteStorage.save_weather (SQLiteStorage.save_events
      (SQLiteStorage.save_road_conditions (SQLiteStorage.save_weather
        (SQLiteStorage.save_events (SQLiteStorage.save_road_conditions sqliteEmpty "c1" [])
          "c1" [{ id := "1001" }]) "c1" []) "c2" []) "c2"
      [{ id := "1001", event_type := "update" }]) "c2" []) "c2" =
      [{ id := "1001", event_type := "update" }] ∧
     List.Perm (DynamoStorage.get_events (DynamoStorage.save_weather
      (DynamoStorage.save_events (DynamoStorage.save_road_conditions
        (DynamoStorage.save_weather (DynamoStorage.save_events
          (DynamoStorage.save_road_conditions [] "c1" []) "c1" [{ id := "1001" }]) "c1" [])
        "c2" []) "c2" [{ id := "1001", event_type := "update" }]) "c2" []) "c2")
      [{ id := "1001", event_type := "update" }]) := by
  have H := cycle_scoped_batches_amended "c1" "c2"
    [{ roadway_name := "SR-35" }] [{ roadway_name := "SR-35", road_condition := "Snow" }]
    [{ id := "1001" }] [{ id := "1002" }]
    [{ station_name := "Wolf Creek" }]
    [{ station_name := "Wolf Creek", surface_status := "Ice" }]
    (by decide) _ _ rfl rfl
  have H2 := cycle_scoped_batches_amended "c1" "c2" [] []
    [{ id := "1001" }] [{ id := "1001", event_type := "update" }] [] []
    (by decide) _ _ rfl rfl
  exact ⟨by decide,
    ⟨H.1.1, H.1.2.1, H.1.2.2.2.2.2,
     H.2.1 (by decide), H.2.2.2.2.1 (by decide),
     H.2.2.1 (by decide) (by decide), H.2.2.2.2.2.2 (by decide)⟩,
    H2.1.2.1, H2.1.2.2.2.2.1, H2.2.2.2.2.2.1 (by decide)⟩

/- ------------------------- Recent captures (C6) ------------------------- -/

/-- Counterexample to C6 as stated: the Dynamo backend's
`get_recent_captures` takes the captures of the latest cycle only, not the
newest captures across all stored captures.  In the table below the latest
cycle ("2026-01-02…") holds a capture taken at "2026-01-01…", while an
earlier cycle holds a strictly newer capture ("2026-01-03…"); with limit
10 the Dynamo backend returns only the older capture and omits the newest
stored capture entirely (SQLite would return both, newest first). -/
theorem dynamo_get_recent_captures_misses_newer_capture :
    DynamoStorage.get_recent_captures
      [{ PK := "CYCLES", SK := "CYCLE#2026-01-01T00:00:00",
         GSI1PK := some "CYCLE#2026-01-01T00:00:00", GSI1SK := some "META",
         attrs := [("cycle_id", .S "2026-01-01T00:00:00"),
                   ("started_at", .S "2026-01-01T00:00:00")] },
       { PK := "CAMERA#6", SK := "CAPTURE#2026-01-03T00:00:00",
         GSI1PK := some "CYCLE#2026-01-01T00:00:00", GSI1SK := some "CAMERA#6",
         attrs := [("cycle_id", .S "2026-01-01T00:00:00"),
                   ("captured_at", .S "2026-01-03T00:00:00"),
                   ("image_key", .S "new.jpg")] },
       { PK := "CYCLES", SK := "CYCLE#2026-01-02T00:00:00",
         GSI1PK := some "CYCLE#2026-01-02T00:00:00", GSI1SK := some "META",
         attrs := [("cycle_id", .S "2026-01-02T00:00:00"),
                   ("started_at", .S "2026-01-02T00:00:00")] },
       { PK := "CAMERA#5", SK := "CAPTURE#2026-01-01T00:00:00",
         GSI1PK := some "CYCLE#2026-01-02T00:00:00", GSI1SK := some "CAMERA#5",
         attrs := [("cycle_id", .S "2026-01-02T00:00:00"),
                   ("captured_at", .S "2026-01-01T00:00:00"),
                   ("image_key", .S "old.jpg")] }] 10 =
      [{ camera_id := 5, cycle_id := "2026-01-02T00:00:00",
         captured_at := "2026-01-01T00:00:00", image_key := "old.jpg" }] := by
  decide

theorem charListLe_total (as bs : List Char) :
    charListLe as bs = true ∨ charListLe bs as = true := by
  induction as generalizing bs with
  | nil => left; simp [charListLe]
  | cons a as ih =>
    cases bs with
    | nil => right; simp [charListLe]
    | cons b bs' =>
      rcases Nat.lt_trichotomy a.toNat b.toNat with h | h | h
      · left; simp [charListLe, h]
      · rcases ih bs' with h' | h'
        · left; simp [charListLe, h, h']
        · right; simp [charListLe, h.symm, h']
      · right; simp [charListLe, h, Nat.lt_asymm h]

theorem charListLe_trans {as bs cs : List Char} (h1 : charListLe as bs = true)
    (h2 : charListLe bs cs = true) : charListLe as cs = true := by
  induction as generalizing bs cs with
  | nil => simp [charListLe]
  | cons a as ih =>
    cases bs with
    | nil => simp [charListLe] at h1
    | cons b bs' =>
      cases cs with
      | nil => simp [charListLe] at h2
      | cons c cs' =>
        simp only [charListLe] at h1 h2 ⊢
        split_ifs at h1 h2 ⊢ <;>
          first
          | rfl
          | omega
          | exact ih h1 h2

theorem strLe_total (a b : String) : strLe a b = true ∨ strLe b a = true :=
  charListLe_total a.data b.data

theorem strLe_trans {a b c : String} (h1 : strLe a b = true) (h2 : strLe b c = true) :
    strLe a c = true :=
  charListLe_trans h1 h2


theorem subperm_map {α β : Type} (f : α → β) {l₁ l₂ : List α}
    (h : List.Subperm l₁ l₂) : List.Subperm (l₁.map f) (l₂.map f) := by
  rcases h with ⟨l, hperm, hsub⟩
  exact ⟨l.map f, hperm.map f, hsub.map f⟩

/-- C6 amended: on the SQLite backend `get_recent_captures n` returns
exactly `min n count` records, ordered newest-first by `captured_at`, drawn
from the stored captures (a sub-permutation of the whole table); the Dynamo
backend instead returns at most `n` records all belonging to the single
most recent cycle — the behaviors are not identical. -/
theorem get_recent_captures_amended :
    (∀ (db : SQLiteDB) (n : ℕ),
      (SQLiteStorage.get_recent_captures db n).length = min n db.captures.length ∧
      (SQLiteStorage.get_recent_captures db n).Pairwise
        (fun a b => strLe b.captured_at a.captured_at = true) ∧
      List.Subperm (SQLiteStorage.get_recent_captures db n)
        (db.captures.map SQLiteStorage._row_to_capture)) ∧
    (∀ (tbl : DynamoTable) (n : ℕ),
      (DynamoStorage.get_recent_captures tbl n).length ≤ n ∧
      (∀ c ∈ DynamoStorage.get_recent_captures tbl n,
        ∃ cy ∈ DynamoStorage.get_cycles tbl 1,
          c ∈ DynamoStorage.get_captures_by_cycle tbl cy.cycle_id)) := by
  constructor
  · intro db n
    simp only [SQLiteStorage.get_recent_captures]
    haveI htot : IsTotal CaptureRow (fun a b => strLe b.captured_at a.captured_at = true) :=
      ⟨fun a b => strLe_total b.captured_at a.captured_at⟩
    haveI htrans : IsTrans CaptureRow (fun a b => strLe b.captured_at a.captured_at = true) :=
      ⟨fun a b c hab hbc => strLe_trans hbc hab⟩
    have hsorted :=
      List.sorted_insertionSort
        (fun a b : CaptureRow => strLe b.captured_at a.captured_at = true) db.captures
    have hperm :
        List.Perm (db.captures.insertionSort
          (fun a b => strLe b.captured_at a.captured_at = true)) db.captures :=
      List.perm_insertionSort _ db.captures
    refine ⟨?_, ?_, ?_⟩
    · simp [List.length_take, hperm.length_eq]
    · exact List.pairwise_map.mpr (hsorted.sublist (List.take_sublist _ _))
    · exact subperm_map _ (((List.take_sublist _ _).subperm).trans hperm.subperm)
  · intro tbl n
    unfold DynamoStorage.get_recent_captures
    cases h : DynamoStorage.get_cycles tbl 1 with
    | nil => simp
    | cons cy rest =>
      constructor
      · simp [List.length_take]
      · intro c hc
        refine ⟨cy, List.mem_cons_self _ _, ?_⟩
        exact List.mem_of_mem_take hc

/- ------------------------- Orchestrator (C4, C5, C10) ------------------------- -/

/-- C4 (code bug): the summarize step always aborts the cycle —
`cycle.snow_count = snow_count` (traffic_cam_monitor.py line 221) assigns a
field models.CycleSummary does not declare, raising an uncaught ValueError
before `save_cycle` and before export; consequently no run of
`run_capture_cycle` ever invokes export (first conjunct).  The second
conjunct evaluates the cycle in which every enrichment-category fetch
raises, with no cameras matched, starting from a fresh store: contrary to
the claim, the run aborts with the ValueError, persists no CycleSummary at
all, and never invokes export. -/
theorem run_capture_cycle_summarize_value_error :
    (∀ (co : CycleCollab) (db0 : SQLiteDB),
      (run_capture_cycle co db0).exported = false) ∧
    run_capture_cycle
      { cycleId := "2026-02-07T12:00:00", capturedAt := "2026-02-07T12:00:01",
        imgStamp := "20260207_120001", completedAt := "2026-02-07T12:05:00",
        cameraIds := [], allCameras := [], fetchUrl := fun _ => Option.none,
        sha256 := fun _ => "", analyze := fun _ => {},
        conditionsFetch := Option.none, eventsFetch := Option.none,
        weatherFetch := Option.none } sqliteEmpty =
      { db := sqliteEmpty, exported := false,
        error := some (.valueError "CycleSummary" "snow_count") } := by
  constructor
  · intro co db0
    simp only [run_capture_cycle]
    split <;> rfl
  · rfl

/-- C5 (code bug): in the dedup skip path with a prior capture present,
evaluating the keyword argument `has_snow=prev.has_snow`
(traffic_cam_monitor.py line 120) raises AttributeError — models.
CaptureRecord declares no analysis fields — aborting the whole cycle.  The
theorem evaluates the scenario of the claim: camera 100's freshly
downloaded bytes hash to the hash stored for it, and a capture for camera
100 is among the recent captures.  As claimed, no new image and no new
hash are written, but contrary to the claim no CaptureRecord is saved for
the cycle: the run dies with the AttributeError and the captures table is
untouched. -/
theorem run_capture_cycle_dedup_skip_with_prev_crashes :
    run_capture_cycle
      { cycleId := "2026-02-08T12:00:00", capturedAt := "2026-02-08T12:00:01",
        imgStamp := "20260208_120001", completedAt := "2026-02-08T12:05:00",
        cameraIds := [100],
        allCameras := [
          { Id := 100, Roadway := some "SR-35", Direction := some "NB",
            Location := some "Wolf Creek Pass Summit",
            Views := [{ Url := some "http://example.com/cam100.jpg" }] }],
        fetchUrl := fun _ => some [255, 216, 1], sha256 := fun _ => "abc123",
        analyze := fun _ => {}, conditionsFetch := Option.none,
        eventsFetch := Option.none, weatherFetch := Option.none }
      { captures := [
          { camera_id := 100, cycle_id := "2026-02-07T12:00:00",
            captured_at := "2026-02-07T12:00:00",
            image_key := "cam_100_20260207_120000.jpg" }],
        image_hashes := [(100, "abc123")] } =
      { db :=
          { cameras := [
              { id := 100, roadway := some "SR-35", direction := some "NB",
                location := some "Wolf Creek Pass Summit" }],
            captures := [
              { camera_id := 100, cycle_id := "2026-02-07T12:00:00",
                captured_at := "2026-02-07T12:00:00",
                image_key := "cam_100_20260207_120000.jpg" }],
            image_hashes := [(100, "abc123")] },
        exported := false,
        error := some (.attributeError "CaptureRecord" "has_snow") } := by
  decide

/-- C10 (code bug): in the dedup skip path with no prior capture for the
camera among the 100 most recent (`get_recent_captures(limit=100)`,
traffic_cam_monitor.py line 114), the record with empty image key and
cached notes is constructed (its analysis keyword arguments are dropped by
pydantic), but `save_capture` then raises AttributeError reading
`capture.has_snow`, so contrary to the claim no CaptureRecord is persisted
and the cycle aborts.  The theorem evaluates that scenario: the stored
hash matches the downloaded bytes but the captures table is empty, and
stays empty while the run errors. -/
theorem run_capture_cycle_dedup_skip_without_prev_crashes :
    run_capture_cycle
      { cycleId := "2026-02-08T12:00:00", capturedAt := "2026-02-08T12:00:01",
        imgStamp := "20260208_120001", completedAt := "2026-02-08T12:05:00",
        cameraIds := [100],
        allCameras := [
          { Id := 100, Roadway := some "SR-35", Direction := some "NB",
            Location := some "Wolf Creek Pass Summit",
            Views := [{ Url := some "http://example.com/cam100.jpg" }] }],
        fetchUrl := fun _ => some [255, 216, 1], sha256 := fun _ => "abc123",
        analyze := fun _ => {}, conditionsFetch := Option.none,
        eventsFetch := Option.none, weatherFetch := Option.none }
      { image_hashes := [(100, "abc123")] } =
      { db :=
          { cameras := [
              { id := 100, roadway := some "SR-35", direction := some "NB",
                location := some "Wolf Creek Pass Summit" }],
            image_hashes := [(100, "abc123")] },
        exported := false,
        error := some (.attributeError "CaptureRecord" "has_snow") } := by
  decide

end WolfCreek
